import Mathlib

/-!
# Auto Reload plugin: the reload tick and its path resolver

A shallow embedding of `src/plugin_auto_reload.cpp`, and what holds of it.

* The host's `prv::Provider` class is not part of the repository; it is taken as a
  parameter (`ProviderOps`), every member function being allowed to throw.
* The process-wide variables (`s_autoReloadEnabled`, `s_reloadMutex`), the current provider,
  the file system, the event bus and the log sink make up the `World`.
* C++ exceptions are modelled by `Except Exn`; a computation that throws keeps the side
  effects made before the throw.
* The `sleep_for` at the head of the tick is a pure delay and is not modelled.

The definitions come first (the embedding, a reference provider, the vocabulary of the
statements), the theorems after.
-/

namespace AutoReload

variable {σ : Type}

/-! ## Exceptions, events, log -/

/-- A thrown C++ object: something derived from `std::exception` (with its `what()`), or
anything else (caught only by `catch (...)`). -/
inductive Exn where
  | stdException (what : String)
  | unknown
  deriving DecidableEq, Repr

/-- One entry of `provider->getDataDescription()`. -/
structure Description where
  name : String
  value : String
  deriving DecidableEq, Repr

/-- The member functions of the provider, as they are called by the plugin. -/
inductive Op where
  | isAvailable
  | getDataDescription
  | getBaseAddress
  | getCurrentPage
  | isResizable
  | getActualSize
  | resizeRaw (newSize : Nat)
  | isWritable
  | writeRaw (offset : Nat) (buffer : List Nat)
  | markDirty (dirty : Bool)
  | setBaseAddress (address : Nat)
  | setCurrentPage (page : Nat)
  deriving DecidableEq, Repr

/-- Events posted on the host's event bus. -/
inductive Event where
  | dataChanged
  deriving DecidableEq, Repr

/-- Lines written to the host's log. -/
inductive LogEntry where
  | debug (msg : String)
  | error (msg : String)
  deriving DecidableEq, Repr

/-! ## The host's provider interface -/

/-- The provider member functions used by the plugin, over an arbitrary provider state `σ`.
The `const` member functions are queries; the others return the new state together with
their outcome. Every one may throw. -/
structure ProviderOps (σ : Type) where
  isAvailable : σ → Except Exn Bool
  getDataDescription : σ → Except Exn (List Description)
  getBaseAddress : σ → Except Exn Nat
  getCurrentPage : σ → Except Exn Nat
  isResizable : σ → Except Exn Bool
  getActualSize : σ → Except Exn Nat
  isWritable : σ → Except Exn Bool
  resizeRaw : Nat → σ → Except Exn Unit × σ
  writeRaw : Nat → List Nat → σ → Except Exn Unit × σ
  markDirty : Bool → σ → Except Exn Unit × σ
  setBaseAddress : Nat → σ → Except Exn Unit × σ
  setCurrentPage : Nat → σ → Except Exn Unit × σ

/-- What an observer of the provider can see besides the queries above: its bytes
(`readRaw` over the whole range) and its dirty flag (`isDirty`). The plugin calls neither. -/
structure Observer (σ : Type) where
  content : σ → List Nat
  isDirty : σ → Bool

/-! ## The file system as seen by one tick -/

/-- What the tick sees of one path: whether `std::ifstream` opens it, what
`std::filesystem::file_size` answers, and the bytes the stream delivers. -/
structure FileView where
  good : Bool
  fileSize : Except Exn Nat
  stream : List Nat

/-! ## The world and the effect monad -/

/-- A `prv::Provider*`: null, or the host's current provider. -/
inductive ProviderPtr where
  | nullptr
  | current
  deriving DecidableEq, Repr

/-- Everything the tick reads or writes. -/
structure World (σ : Type) where
  /-- Models `s_autoReloadEnabled`. -/
  enabled : Bool
  /-- Models `s_reloadMutex`: `true` when locked. -/
  locked : Bool
  /-- The provider `ImHexApi::Provider::get()` points to, if any. -/
  provider : Option σ
  /-- The file system. -/
  fs : String → FileView
  /-- Events posted so far. -/
  events : List Event
  /-- Log lines written so far. -/
  log : List LogEntry
  /-- Provider member functions called so far. -/
  trace : List Op

/-- A computation: from a world to an outcome (a value or a thrown exception) and the world
it leaves behind. -/
def M (σ : Type) (α : Type) : Type := World σ → Except Exn α × World σ

instance (σ : Type) : Monad (M σ) where
  pure a := fun w => (.ok a, w)
  bind m f := fun w =>
    match m w with
    | (.ok a, w') => f a w'
    | (.error e, w') => (.error e, w')

/-- The `try { body } catch (...) { handler }` construct. -/
def tryCatchAll {σ α : Type} (body : M σ α) (handler : Exn → M σ α) : M σ α := fun w =>
  match body w with
  | (.ok a, w') => (.ok a, w')
  | (.error e, w') => handler e w'

/-- The provider object a pointer refers to in world `w`, if any. -/
def deref {σ : Type} (provider : ProviderPtr) (w : World σ) : Option σ :=
  match provider with
  | .nullptr => none
  | .current => w.provider

/-- Dereferencing a null provider pointer; never reached, every call is behind a null check. -/
def nullDereference : Exn := .stdException "null provider"

/-- Call of a `const` member function through `provider`. -/
def callQuery {σ α : Type} (op : Op) (f : σ → Except Exn α) (provider : ProviderPtr) : M σ α :=
  fun w =>
    match deref provider w with
    | some s => (f s, { w with trace := w.trace ++ [op] })
    | none => (.error nullDereference, w)

/-- Call of a non-`const` member function through `provider`. -/
def callMutator {σ : Type} (op : Op) (f : σ → Except Exn Unit × σ) (provider : ProviderPtr) :
    M σ Unit :=
  fun w =>
    match deref provider w with
    | some s => ((f s).1, { w with provider := some (f s).2, trace := w.trace ++ [op] })
    | none => (.error nullDereference, w)

/-- Reads `s_autoReloadEnabled`. -/
def autoReloadEnabled {σ : Type} : M σ Bool := fun w => (.ok w.enabled, w)

/-- Models `s_reloadMutex.try_lock()`. -/
def try_lock {σ : Type} : M σ Bool := fun w =>
  if w.locked then (.ok false, w) else (.ok true, { w with locked := true })

/-- Models `s_reloadMutex.unlock()`. -/
def unlock {σ : Type} : M σ Unit := fun w => (.ok (), { w with locked := false })

/-- The pointer `ImHexApi::Provider::get()` returns in world `w`. -/
def currentProvider {σ : Type} (w : World σ) : ProviderPtr :=
  match w.provider with
  | some _ => .current
  | none => .nullptr

/-- Models `ImHexApi::Provider::get()`. -/
def providerGet {σ : Type} : M σ ProviderPtr := fun w => (.ok (currentProvider w), w)

/-- Models `log::debug`. -/
def logDebug {σ : Type} (msg : String) : M σ Unit := fun w =>
  (.ok (), { w with log := w.log ++ [.debug msg] })

/-- Models `log::error`. -/
def logError {σ : Type} (msg : String) : M σ Unit := fun w =>
  (.ok (), { w with log := w.log ++ [.error msg] })

/-- Models `EventManager::post<EventDataChanged>(provider)`. -/
def postDataChanged {σ : Type} : M σ Unit := fun w =>
  (.ok (), { w with events := w.events ++ [.dataChanged] })

/-- Models `std::ifstream file(path, std::ios::binary)`: the view of the file. -/
def openFile {σ : Type} (path : String) : M σ FileView := fun w => (.ok (w.fs path), w)

/-- Models `std::filesystem::file_size(path)`, which throws when the query fails. -/
def file_size {σ : Type} (path : String) : M σ Nat := fun w => ((w.fs path).fileSize, w)

/-- Models `std::vector<u8> buffer(fileSize); file.read(buffer.data(), fileSize)`: the buffer is
zero-initialised and the stream fills as many leading bytes as it can deliver. -/
def readBuffer (file : FileView) (fileSize : Nat) : List Nat :=
  file.stream.take fileSize ++ List.replicate (fileSize - file.stream.length) 0

/-! ## `std::string::find` -/

/-- Models `std::string::find`, from position `pos` on: the first position at which `pat`
occurs, `none` standing for `npos`. -/
def findFrom (pat : List Char) : List Char → Nat → Option Nat
  | [], pos => if pat.isPrefixOf [] then some pos else none
  | c :: cs, pos => if pat.isPrefixOf (c :: cs) then some pos else findFrom pat cs (pos + 1)

/-- Models `s.find(pat)`. -/
def find (s pat : String) : Option Nat := findFrom pat.toList s.toList 0

/-! ## The plugin -/

/-- The loop of `getProviderFilePath`: the value of the first description whose name
contains "path". -/
def firstPathValue : List Description → Option String
  | [] => none
  | desc :: rest =>
    if find desc.name "path" != none then some desc.value else firstPathValue rest

/-- Models `getProviderFilePath(provider)`. -/
def getProviderFilePath {σ : Type} (P : ProviderOps σ) (provider : ProviderPtr) :
    M σ (Option String) :=
  if provider = .nullptr then pure none
  else
    tryCatchAll
      (do
        let descriptions ← callQuery .getDataDescription P.getDataDescription provider
        pure (firstPathValue descriptions))
      (fun _ => pure none)

/-- Lines 93-96 of the `try` block: resize the provider to match the file size. The size is
asked for only when the provider is resizable (`&&` short-circuits). -/
def resizeToFileSize {σ : Type} (P : ProviderOps σ) (provider : ProviderPtr) (fileSize : Nat) :
    M σ Unit := do
  let resizable ← callQuery .isResizable P.isResizable provider
  if resizable then do
    let actualSize ← callQuery .getActualSize P.getActualSize provider
    if actualSize != fileSize then
      callMutator (.resizeRaw fileSize) (P.resizeRaw fileSize) provider
    else pure ()
  else pure ()

/-- Lines 98-102 of the `try` block: write the buffer to the provider with `writeRaw`. -/
def writeBuffer {σ : Type} (P : ProviderOps σ) (provider : ProviderPtr) (fileSize : Nat)
    (buffer : List Nat) : M σ Unit := do
  let writable ← callQuery .isWritable P.isWritable provider
  if writable && fileSize > 0 then
    callMutator (.writeRaw 0 buffer) (P.writeRaw 0 buffer) provider
  else pure ()

/-- Lines 93-112 of the `try` block: resize, write, clear the edit flag, restore the state
captured before, post the data-changed event. -/
def syncProvider {σ : Type} (P : ProviderOps σ) (provider : ProviderPtr) (fileSize : Nat)
    (buffer : List Nat) (baseAddress currentPage : Nat) : M σ Unit := do
  resizeToFileSize P provider fileSize
  writeBuffer P provider fileSize buffer
  callMutator (.markDirty false) (P.markDirty false) provider
  callMutator (.setBaseAddress baseAddress) (P.setBaseAddress baseAddress) provider
  callMutator (.setCurrentPage currentPage) (P.setCurrentPage currentPage) provider
  postDataChanged

/-- Lines 73-112 of the `try` block: what is done once the file path is known. The result
tells whether the block executed a `return` (`true`) or ran to its end (`false`). -/
def reloadFrom {σ : Type} (P : ProviderOps σ) (provider : ProviderPtr) (path : String) :
    M σ Bool := do
  let baseAddress ← callQuery .getBaseAddress P.getBaseAddress provider
  let currentPage ← callQuery .getCurrentPage P.getCurrentPage provider
  let file ← openFile path
  if !file.good then do
    logError "Failed to open file for reading"
    unlock
    pure true
  else do
    let fileSize ← file_size path
    let buffer := readBuffer file fileSize
    syncProvider P provider fileSize buffer baseAddress currentPage
    pure false

/-- The `try` block of `autoReloadService`. The result tells whether the block executed a
`return` (`true`) or ran to its end (`false`). -/
def reloadBody {σ : Type} (P : ProviderOps σ) (provider : ProviderPtr) : M σ Bool := do
  let filePath ← getProviderFilePath P provider
  match filePath with
  | none => do
    logDebug "Could not determine file path"
    unlock
    pure true
  | some path => reloadFrom P provider path

/-- The two `catch` clauses of `autoReloadService`. -/
def reloadHandler {σ : Type} (e : Exn) : M σ Bool := do
  match e with
  | .stdException what => logError ("Failed to reload file: " ++ what)
  | .unknown => logError "Failed to reload file with unknown error"
  pure false

/-- Models `autoReloadService()`, from the lock attempt on (the guard is requested by the
caller of this part). -/
def reloadLocked {σ : Type} (P : ProviderOps σ) : M σ Unit := do
  let provider ← providerGet
  if provider = .nullptr then
    unlock
  else do
    let available ← callQuery .isAvailable P.isAvailable provider
    if !available then
      unlock
    else do
      let returned ← tryCatchAll (reloadBody P provider) reloadHandler
      if returned then pure () else unlock

/-- Models `autoReloadService()`: one tick. -/
def autoReloadService {σ : Type} (P : ProviderOps σ) : M σ Unit := do
  let enabled ← autoReloadEnabled
  if !enabled then pure ()
  else do
    let acquired ← try_lock
    if !acquired then pure ()
    else reloadLocked P

/-! ## A reference provider

A concrete provider used to exhibit runs of the tick: a byte buffer with a dirty flag and a
navigation state, whose `resizeRaw` and `writeRaw` reset the navigation state, and whose
availability check and write can be made to throw. -/

/-- State of the reference provider. -/
structure RefProvider where
  available : Bool
  description : List Description
  resizable : Bool
  writable : Bool
  bytes : List Nat
  dirty : Bool
  baseAddress : Nat
  currentPage : Nat
  /-- What `isAvailable` throws, if it throws. -/
  availableFault : Option Exn
  /-- What `writeRaw` throws, if it throws. -/
  writeFault : Option Exn
  deriving DecidableEq, Repr

/-- The bytes of a buffer after `resizeRaw`: cut, or extended by zeroes. -/
def resizeBytes (newSize : Nat) (bytes : List Nat) : List Nat :=
  bytes.take newSize ++ List.replicate (newSize - bytes.length) 0

/-- The bytes of a buffer after `writeRaw`: the part of `buffer` that fits is stored. -/
def overwriteBytes (offset : Nat) (buffer bytes : List Nat) : List Nat :=
  bytes.take offset ++ buffer.take (bytes.length - offset) ++ bytes.drop (offset + buffer.length)

/-- The member functions of the reference provider. -/
def refOps : ProviderOps RefProvider where
  isAvailable s :=
    match s.availableFault with
    | some e => .error e
    | none => .ok s.available
  getDataDescription s := .ok s.description
  getBaseAddress s := .ok s.baseAddress
  getCurrentPage s := .ok s.currentPage
  isResizable s := .ok s.resizable
  getActualSize s := .ok s.bytes.length
  isWritable s := .ok s.writable
  resizeRaw newSize s :=
    (.ok (), { s with bytes := resizeBytes newSize s.bytes, baseAddress := 0, currentPage := 0 })
  writeRaw offset buffer s :=
    match s.writeFault with
    | some e => (.error e, s)
    | none =>
      (.ok (), { s with bytes := overwriteBytes offset buffer s.bytes,
                        baseAddress := 0, currentPage := 0 })
  markDirty dirty s := (.ok (), { s with dirty := dirty })
  setBaseAddress address s := (.ok (), { s with baseAddress := address })
  setCurrentPage page s := (.ok (), { s with currentPage := page })

/-- The observer of the reference provider. -/
def refObs : Observer RefProvider where
  content s := s.bytes
  isDirty s := s.dirty

/-- A file system with one readable file, at `path`, every other path failing to open. -/
def oneFile (path : String) (bytes : List Nat) : String → FileView := fun p =>
  if p = path then { good := true, fileSize := .ok bytes.length, stream := bytes }
  else { good := false, fileSize := .error (.stdException "filesystem error"), stream := [] }

/-- A world around a reference provider: service enabled, guard free, nothing posted or logged. -/
def refWorld (s : RefProvider) (fs : String → FileView) : World RefProvider where
  enabled := true
  locked := false
  provider := some s
  fs := fs
  events := []
  log := []
  trace := []

/-- A writable, resizable reference provider of ten bytes `0..9`, modified by the user and
positioned away from the default location. -/
def tenBytes : RefProvider where
  available := true
  description := [⟨"Type", "File"⟩, ⟨"File path", "/tmp/data.bin"⟩, ⟨"Size", "10"⟩]
  resizable := true
  writable := true
  bytes := List.range 10
  dirty := true
  baseAddress := 4096
  currentPage := 3
  availableFault := none
  writeFault := none

/-! ## Vocabulary of the statements -/

/-- Spec-side reading of "the name contains the substring": `pat` occurs somewhere in `name`. -/
def Contains (name pat : String) : Prop :=
  ∃ pre suf : List Char, name.toList = pre ++ pat.toList ++ suf

/-- Whether a member function may change the provider: `resizeRaw`, `writeRaw`, `markDirty`
and the two setters of the navigation state do, the `const` member functions do not. -/
def Op.mutates : Op → Bool
  | .resizeRaw _ => true
  | .writeRaw _ _ => true
  | .markDirty _ => true
  | .setBaseAddress _ => true
  | .setCurrentPage _ => true
  | _ => false

/-- The line the two `catch` clauses of `autoReloadService` log for a caught exception. -/
def reloadFailure : Exn → LogEntry
  | .stdException what => .error ("Failed to reload file: " ++ what)
  | .unknown => .error "Failed to reload file with unknown error"

/-- The path `getProviderFilePath` finds for a provider in state `s`. -/
def resolvedPath {σ : Type} (P : ProviderOps σ) (s : σ) : Option String :=
  match P.getDataDescription s with
  | .ok ds => firstPathValue ds
  | .error _ => none

/-- The tick reached its notification: one data-changed event was posted between `w` and `w'`. -/
def Notified {σ : Type} (w w' : World σ) : Prop := w'.events = w.events ++ [.dataChanged]

/-! ## Outcomes of the tick

Every path through the blocks of the tick, as relations between the provider state before and
after; the section on running the tick proves that the tick always follows one of them. -/

/-- What lines 93-96 can do to a provider in state `s` for a file of `n` bytes: the outcome
and the state they leave. -/
inductive ResizeOutcome (P : ProviderOps σ) (n : Nat) (s : σ) : Except Exn Unit → σ → Prop
  | queryFailed (e : Exn) : P.isResizable s = .error e → ResizeOutcome P n s (.error e) s
  | fixedSize : P.isResizable s = .ok false → ResizeOutcome P n s (.ok ()) s
  | sizeFailed (e : Exn) : P.isResizable s = .ok true → P.getActualSize s = .error e →
      ResizeOutcome P n s (.error e) s
  | sameSize : P.isResizable s = .ok true → P.getActualSize s = .ok n →
      ResizeOutcome P n s (.ok ()) s
  | resized (m : Nat) (r : Except Exn Unit) (s' : σ) : P.isResizable s = .ok true →
      P.getActualSize s = .ok m → m ≠ n → P.resizeRaw n s = (r, s') → ResizeOutcome P n s r s'

/-- What lines 98-102 can do to a provider in state `s`. -/
inductive WriteOutcome (P : ProviderOps σ) (n : Nat) (buffer : List Nat) (s : σ) :
    Except Exn Unit → σ → Prop
  | queryFailed (e : Exn) : P.isWritable s = .error e → WriteOutcome P n buffer s (.error e) s
  | readOnly : P.isWritable s = .ok false → WriteOutcome P n buffer s (.ok ()) s
  | emptyFile : P.isWritable s = .ok true → n = 0 → WriteOutcome P n buffer s (.ok ()) s
  | written (r : Except Exn Unit) (s' : σ) : P.isWritable s = .ok true → 0 < n →
      P.writeRaw 0 buffer s = (r, s') → WriteOutcome P n buffer s r s'

/-- What lines 93-109 can do to a provider in state `s`: they stop at the first member
function that throws. -/
inductive SyncOutcome (P : ProviderOps σ) (n : Nat) (buffer : List Nat) (b p : Nat) (s : σ) :
    Except Exn Unit → σ → Prop
  | resizeFailed (e : Exn) (s₁ : σ) : ResizeOutcome P n s (.error e) s₁ →
      SyncOutcome P n buffer b p s (.error e) s₁
  | writeFailed (e : Exn) (s₁ s₂ : σ) : ResizeOutcome P n s (.ok ()) s₁ →
      WriteOutcome P n buffer s₁ (.error e) s₂ → SyncOutcome P n buffer b p s (.error e) s₂
  | clearFailed (e : Exn) (s₁ s₂ s₃ : σ) : ResizeOutcome P n s (.ok ()) s₁ →
      WriteOutcome P n buffer s₁ (.ok ()) s₂ → P.markDirty false s₂ = (.error e, s₃) →
      SyncOutcome P n buffer b p s (.error e) s₃
  | baseFailed (e : Exn) (s₁ s₂ s₃ s₄ : σ) : ResizeOutcome P n s (.ok ()) s₁ →
      WriteOutcome P n buffer s₁ (.ok ()) s₂ → P.markDirty false s₂ = (.ok (), s₃) →
      P.setBaseAddress b s₃ = (.error e, s₄) → SyncOutcome P n buffer b p s (.error e) s₄
  | pageFailed (e : Exn) (s₁ s₂ s₃ s₄ s₅ : σ) : ResizeOutcome P n s (.ok ()) s₁ →
      WriteOutcome P n buffer s₁ (.ok ()) s₂ → P.markDirty false s₂ = (.ok (), s₃) →
      P.setBaseAddress b s₃ = (.ok (), s₄) → P.setCurrentPage p s₄ = (.error e, s₅) →
      SyncOutcome P n buffer b p s (.error e) s₅
  | done (s₁ s₂ s₃ s₄ s₅ : σ) : ResizeOutcome P n s (.ok ()) s₁ →
      WriteOutcome P n buffer s₁ (.ok ()) s₂ → P.markDirty false s₂ = (.ok (), s₃) →
      P.setBaseAddress b s₃ = (.ok (), s₄) → P.setCurrentPage p s₄ = (.ok (), s₅) →
      SyncOutcome P n buffer b p s (.ok ()) s₅

/-- The events after lines 93-112: one more when they ran to their end. -/
def eventsAfter (r : Except Exn Unit) (events : List Event) : List Event :=
  match r with
  | .ok _ => events ++ [.dataChanged]
  | .error _ => events

/-- Every way the tick can go once it holds the guard: the conditions met on the way, and the
outcome and world it ends with, `w` being the world in which the guard was taken. -/
inductive LockedOutcome (P : ProviderOps σ) (w : World σ) : Except Exn Unit × World σ → Prop
  | noProvider : w.provider = none → LockedOutcome P w (.ok (), { w with locked := false })
  | availabilityThrew (s : σ) (e : Exn) : w.provider = some s → P.isAvailable s = .error e →
      LockedOutcome P w (.error e, { w with locked := true, trace := w.trace ++ [.isAvailable] })
  | unavailable (s : σ) : w.provider = some s → P.isAvailable s = .ok false →
      LockedOutcome P w (.ok (), { w with locked := false, trace := w.trace ++ [.isAvailable] })
  | noPath (s : σ) : w.provider = some s → P.isAvailable s = .ok true →
      resolvedPath P s = none →
      LockedOutcome P w (.ok (),
        { w with locked := false,
                 log := w.log ++ [.debug "Could not determine file path"],
                 trace := w.trace ++ [.isAvailable, .getDataDescription] })
  | baseFailed (s : σ) (path : String) (e : Exn) : w.provider = some s →
      P.isAvailable s = .ok true → resolvedPath P s = some path →
      P.getBaseAddress s = .error e →
      LockedOutcome P w (.ok (),
        { w with locked := false,
                 log := w.log ++ [reloadFailure e],
                 trace := w.trace ++ [.isAvailable, .getDataDescription, .getBaseAddress] })
  | pageFailed (s : σ) (path : String) (b : Nat) (e : Exn) : w.provider = some s →
      P.isAvailable s = .ok true → resolvedPath P s = some path →
      P.getBaseAddress s = .ok b → P.getCurrentPage s = .error e →
      LockedOutcome P w (.ok (),
        { w with locked := false,
                 log := w.log ++ [reloadFailure e],
                 trace := w.trace ++
                   [.isAvailable, .getDataDescription, .getBaseAddress, .getCurrentPage] })
  | openFailed (s : σ) (path : String) (b p : Nat) : w.provider = some s →
      P.isAvailable s = .ok true → resolvedPath P s = some path →
      P.getBaseAddress s = .ok b → P.getCurrentPage s = .ok p → (w.fs path).good = false →
      LockedOutcome P w (.ok (),
        { w with locked := false,
                 log := w.log ++ [.error "Failed to open file for reading"],
                 trace := w.trace ++
                   [.isAvailable, .getDataDescription, .getBaseAddress, .getCurrentPage] })
  | sizeFailed (s : σ) (path : String) (b p : Nat) (e : Exn) : w.provider = some s →
      P.isAvailable s = .ok true → resolvedPath P s = some path →
      P.getBaseAddress s = .ok b → P.getCurrentPage s = .ok p → (w.fs path).good = true →
      (w.fs path).fileSize = .error e →
      LockedOutcome P w (.ok (),
        { w with locked := false,
                 log := w.log ++ [reloadFailure e],
                 trace := w.trace ++
                   [.isAvailable, .getDataDescription, .getBaseAddress, .getCurrentPage] })
  | syncFailed (s : σ) (path : String) (b p n : Nat) (e : Exn) (s' : σ) (t : List Op) :
      w.provider = some s → P.isAvailable s = .ok true → resolvedPath P s = some path →
      P.getBaseAddress s = .ok b → P.getCurrentPage s = .ok p → (w.fs path).good = true →
      (w.fs path).fileSize = .ok n →
      SyncOutcome P n (readBuffer (w.fs path) n) b p s (.error e) s' →
      LockedOutcome P w (.ok (),
        { w with locked := false,
                 provider := some s',
                 log := w.log ++ [reloadFailure e],
                 trace := w.trace ++ t })
  | synced (s : σ) (path : String) (b p n : Nat) (s' : σ) (t : List Op) :
      w.provider = some s → P.isAvailable s = .ok true → resolvedPath P s = some path →
      P.getBaseAddress s = .ok b → P.getCurrentPage s = .ok p → (w.fs path).good = true →
      (w.fs path).fileSize = .ok n →
      SyncOutcome P n (readBuffer (w.fs path) n) b p s (.ok ()) s' →
      LockedOutcome P w (.ok (),
        { w with locked := false,
                 provider := some s',
                 events := w.events ++ [.dataChanged],
                 trace := w.trace ++ t })

/-- Every way a tick can go. -/
inductive TickOutcome (P : ProviderOps σ) (w : World σ) : Except Exn Unit × World σ → Prop
  | disabled : w.enabled = false → TickOutcome P w (.ok (), w)
  | busy : w.enabled = true → w.locked = true → TickOutcome P w (.ok (), w)
  | acquired (r : Except Exn Unit × World σ) : w.enabled = true → w.locked = false →
      LockedOutcome P w r → TickOutcome P w r

/-- Nothing happened to the provider between `w` and `w'`: its state is the same, no event was
posted, and only `const` member functions were called in between. -/
def Untouched (w w' : World σ) : Prop :=
  w'.provider = w.provider ∧ w'.events = w.events ∧
    ∃ t, w'.trace = w.trace ++ t ∧ ∀ op ∈ t, op.mutates = false

/-! ## What is assumed of the host's provider

The provider class belongs to the host. The statements about the bytes, the size, the dirty
flag and the navigation state after a tick hold for every provider which meets the laws
below; the reference provider meets them all. None of the laws says what `resizeRaw` and
`writeRaw` do to the navigation state. -/

/-- Setting the navigation state: the base address and the page read back as set, and
setting the page leaves the base address alone. -/
structure NavigationLaws (P : ProviderOps σ) : Prop where
  setBaseAddress_get : ∀ a s s', P.setBaseAddress a s = (.ok (), s') →
    P.getBaseAddress s' = .ok a
  setCurrentPage_get : ∀ p s s', P.setCurrentPage p s = (.ok (), s') →
    P.getCurrentPage s' = .ok p
  setCurrentPage_base : ∀ p s, P.getBaseAddress (P.setCurrentPage p s).2 = P.getBaseAddress s

/-- Clearing the dirty flag and setting the navigation state leave the bytes alone, whether
they return or throw. -/
structure FrameLaws (P : ProviderOps σ) (O : Observer σ) : Prop where
  markDirty_content : ∀ d s, O.content (P.markDirty d s).2 = O.content s
  setBaseAddress_content : ∀ a s, O.content (P.setBaseAddress a s).2 = O.content s
  setCurrentPage_content : ∀ p s, O.content (P.setCurrentPage p s).2 = O.content s

/-- The provider is a resizable byte buffer with a dirty flag: the size is the number of
bytes; a `resizeRaw` that returns sets the size; a `writeRaw` of the whole buffer that returns
sets the bytes; a `markDirty` that returns sets the flag; and the functions called after
these leave the size and the flag alone. Resizing does not change writability. -/
structure BufferLaws (P : ProviderOps σ) (O : Observer σ) : Prop where
  size_content : ∀ s n, P.getActualSize s = .ok n → (O.content s).length = n
  resize_size : ∀ n s s', P.resizeRaw n s = (.ok (), s') → P.getActualSize s' = .ok n
  resize_writable : ∀ n s, P.isWritable (P.resizeRaw n s).2 = P.isWritable s
  write_content : ∀ buffer s s', P.writeRaw 0 buffer s = (.ok (), s') →
    P.getActualSize s = .ok buffer.length → O.content s' = buffer
  write_size : ∀ offset buffer s,
    P.getActualSize (P.writeRaw offset buffer s).2 = P.getActualSize s
  markDirty_flag : ∀ d s s', P.markDirty d s = (.ok (), s') → O.isDirty s' = d
  markDirty_size : ∀ d s, P.getActualSize (P.markDirty d s).2 = P.getActualSize s
  setBaseAddress_size : ∀ a s, P.getActualSize (P.setBaseAddress a s).2 = P.getActualSize s
  setBaseAddress_dirty : ∀ a s, O.isDirty (P.setBaseAddress a s).2 = O.isDirty s
  setCurrentPage_size : ∀ p s, P.getActualSize (P.setCurrentPage p s).2 = P.getActualSize s
  setCurrentPage_dirty : ∀ p s, O.isDirty (P.setCurrentPage p s).2 = O.isDirty s

deriving instance DecidableEq for Except

/-! ## Example worlds -/

/-- The file of the scenario after it grew: twenty bytes `0..19`. -/
def grownFile : String → FileView := oneFile "/tmp/data.bin" (List.range 20)

/-- The scenario of the specification: the file grew from ten to twenty bytes while the
writable, resizable provider still holds the first ten. -/
def scenario : World RefProvider := refWorld tenBytes grownFile

/-- The scenario with the service switched off. -/
def scenarioDisabled : World RefProvider := { scenario with enabled := false }

/-- The scenario with the guard held by another tick. -/
def scenarioBusy : World RefProvider := { scenario with locked := true }

/-- The scenario with a provider whose `writeRaw` throws. -/
def scenarioWriteThrows : World RefProvider :=
  refWorld { tenBytes with writeFault := some (.stdException "write failed") } grownFile

/-- The scenario with a provider whose `isAvailable` throws. -/
def scenarioAvailabilityThrows : World RefProvider :=
  refWorld { tenBytes with availableFault := some (.stdException "provider gone") } grownFile

/-- The scenario with a provider whose description has no entry for a path. -/
def scenarioNoPath : World RefProvider :=
  refWorld { tenBytes with description := [⟨"Type", "File"⟩, ⟨"Size", "10"⟩] } grownFile

/-- The scenario with the file gone: nothing opens. -/
def scenarioNoFile : World RefProvider := refWorld tenBytes (oneFile "/tmp/other.bin" [])

/-- A file whose size query answers twenty while the stream delivers twelve bytes only. -/
def shortFile : String → FileView := fun p =>
  if p = "/tmp/data.bin" then
    { good := true, fileSize := .ok 20, stream := List.range 12 }
  else { good := false, fileSize := .error (.stdException "filesystem error"), stream := [] }

/-- The scenario with a short read. -/
def scenarioShortRead : World RefProvider := refWorld tenBytes shortFile

/-- A read-only but resizable provider of ten bytes, in front of a file of four bytes. -/
def scenarioReadOnlyResizable : World RefProvider :=
  refWorld { tenBytes with writable := false } (oneFile "/tmp/data.bin" (List.range 4))

/-- A read-only provider of fixed size, in front of the grown file. -/
def scenarioReadOnly : World RefProvider :=
  refWorld { tenBytes with writable := false, resizable := false } grownFile

instance (w w' : World σ) : Decidable (Notified w w') :=
  inferInstanceAs (Decidable (w'.events = w.events ++ [Event.dataChanged]))

/-- What the tick asks of a provider before it touches it: whether it can be resized, whether
it can be written, and its description. -/
def capabilities (P : ProviderOps σ) (s : σ) :
    Except Exn Bool × Except Exn Bool × Except Exn (List Description) :=
  (P.isResizable s, P.isWritable s, P.getDataDescription s)

/-- The capabilities and the description of a provider are fixed: no member function the tick
calls changes them. And writing again the bytes just written changes nothing: if a provider
holds the bytes a `writeRaw` of `buffer` left, a further `writeRaw` of `buffer` keeps them. -/
structure StableLaws (P : ProviderOps σ) (O : Observer σ) : Prop where
  resizeRaw_capabilities : ∀ n s, capabilities P (P.resizeRaw n s).2 = capabilities P s
  writeRaw_capabilities : ∀ offset buffer s,
    capabilities P (P.writeRaw offset buffer s).2 = capabilities P s
  markDirty_capabilities : ∀ d s, capabilities P (P.markDirty d s).2 = capabilities P s
  setBaseAddress_capabilities : ∀ a s,
    capabilities P (P.setBaseAddress a s).2 = capabilities P s
  setCurrentPage_capabilities : ∀ p s,
    capabilities P (P.setCurrentPage p s).2 = capabilities P s
  write_again : ∀ buffer s s' t t', P.writeRaw 0 buffer s = (.ok (), s') →
    O.content t = O.content s' → P.writeRaw 0 buffer t = (.ok (), t') →
    O.content t' = O.content t

/-! ## Ticks that overlap

The scheduler may start a tick while another has not returned. Each tick then goes through
its own steps: it reads the enable flag, tries the lock, and, holding the guard, runs the rest
of `autoReloadService`; the steps of different ticks interleave in any order, and the menu
item may flip the enable flag at any moment. -/

/-- Where a tick stands. -/
inductive Phase where
  /-- Not yet past the check of the enable flag. -/
  | start
  /-- Past the check of the enable flag, before `try_lock`. -/
  | checked
  /-- Between a successful `try_lock` and the matching `unlock`. -/
  | holding
  /-- Returned, holding nothing. -/
  | returned
  /-- Left by an exception, the guard never unlocked. -/
  | escaped
  deriving DecidableEq, Repr

/-- Whether a tick in this phase is between its guard acquisition and its guard release. -/
def Phase.holdsGuard : Phase → Bool
  | .holding => true
  | .escaped => true
  | _ => false

/-- The shared world and the phase of every tick. -/
structure System (σ : Type) where
  world : World σ
  phase : Nat → Phase

/-- One step of one tick, or a flip of the enable flag. -/
inductive Step (P : ProviderOps σ) : System σ → System σ → Prop
  | disabled (sys : System σ) (i : Nat) (w' : World σ) : sys.phase i = .start →
      autoReloadEnabled sys.world = (.ok false, w') →
      Step P sys ⟨w', Function.update sys.phase i .returned⟩
  | enabled (sys : System σ) (i : Nat) (w' : World σ) : sys.phase i = .start →
      autoReloadEnabled sys.world = (.ok true, w') →
      Step P sys ⟨w', Function.update sys.phase i .checked⟩
  | busy (sys : System σ) (i : Nat) (w' : World σ) : sys.phase i = .checked →
      try_lock sys.world = (.ok false, w') →
      Step P sys ⟨w', Function.update sys.phase i .returned⟩
  | acquire (sys : System σ) (i : Nat) (w' : World σ) : sys.phase i = .checked →
      try_lock sys.world = (.ok true, w') →
      Step P sys ⟨w', Function.update sys.phase i .holding⟩
  | finish (sys : System σ) (i : Nat) (w' : World σ) : sys.phase i = .holding →
      reloadLocked P sys.world = (.ok (), w') →
      Step P sys ⟨w', Function.update sys.phase i .returned⟩
  | escape (sys : System σ) (i : Nat) (e : Exn) (w' : World σ) : sys.phase i = .holding →
      reloadLocked P sys.world = (.error e, w') →
      Step P sys ⟨w', Function.update sys.phase i .escaped⟩
  | toggle (sys : System σ) :
      Step P sys ⟨{ sys.world with enabled := !sys.world.enabled }, sys.phase⟩

/-- The systems that can arise: no tick has started and the guard is free, then any steps. -/
inductive Reachable (P : ProviderOps σ) : System σ → Prop
  | init (sys : System σ) : sys.world.locked = false → (∀ i, sys.phase i = .start) →
      Reachable P sys
  | step (sys sys' : System σ) : Reachable P sys → Step P sys sys' → Reachable P sys'

/-- While a tick is between acquisition and release, no other is, and the guard is locked. -/
def Exclusive (sys : System σ) : Prop :=
  (∀ i j, (sys.phase i).holdsGuard = true → (sys.phase j).holdsGuard = true → i = j) ∧
    ((∃ i, (sys.phase i).holdsGuard = true) → sys.world.locked = true)

/-- Two overlapping ticks of the scenario: tick 0 holds the guard, tick 1 found it busy and
returned. -/
def overlapStart : System RefProvider := ⟨scenario, fun _ => .start⟩

/-- Tick 0 has read the enable flag. -/
def overlapChecked : System RefProvider :=
  ⟨scenario, Function.update overlapStart.phase 0 .checked⟩

/-- Tick 0 holds the guard. -/
def overlapHolding : System RefProvider :=
  ⟨{ scenario with locked := true }, Function.update overlapChecked.phase 0 .holding⟩

/-- Tick 1 has read the enable flag while tick 0 holds the guard. -/
def overlapSecond : System RefProvider :=
  ⟨overlapHolding.world, Function.update overlapHolding.phase 1 .checked⟩

/-- Tick 1 found the guard busy and returned while tick 0 still holds it. -/
def overlapBusy : System RefProvider :=
  ⟨overlapSecond.world, Function.update overlapSecond.phase 1 .returned⟩

/-! # Theorems -/

/-! ## Running computations -/

theorem bind_run {α β : Type} (m : M σ α) (f : α → M σ β) (w : World σ) :
    (m >>= f) w =
      match m w with
      | (.ok a, w') => f a w'
      | (.error e, w') => (.error e, w') := rfl

theorem pure_run {α : Type} (a : α) (w : World σ) : (pure a : M σ α) w = (.ok a, w) := rfl

theorem ite_run {α : Type} (c : Prop) [Decidable c] (m₁ m₂ : M σ α) (w : World σ) :
    (if c then m₁ else m₂) w = if c then m₁ w else m₂ w := by
  split <;> rfl

/-! ## `find` decides containment -/

theorem findFrom_ne_none_iff (pat : List Char) (s : List Char) (pos : Nat) :
    findFrom pat s pos ≠ none ↔ ∃ pre suf : List Char, s = pre ++ pat ++ suf := by
  induction s generalizing pos with
  | nil =>
    simp only [findFrom]
    constructor
    · intro h
      by_cases hp : pat.isPrefixOf [] = true
      · obtain ⟨t, ht⟩ := List.isPrefixOf_iff_prefix.mp hp
        have hpat : pat = [] := (List.append_eq_nil.mp ht).1
        exact ⟨[], [], by simp [hpat]⟩
      · simp [hp] at h
    · rintro ⟨pre, suf, h⟩
      have hpat : pat = [] := by
        have := congrArg List.length h
        simp at this
        exact List.length_eq_zero.mp (by omega)
      simp [hpat]
  | cons c cs ih =>
    simp only [findFrom]
    by_cases hp : pat.isPrefixOf (c :: cs) = true
    · simp only [hp, if_true]
      obtain ⟨t, ht⟩ := List.isPrefixOf_iff_prefix.mp hp
      exact ⟨fun _ => ⟨[], t, by simp [ht]⟩, fun _ => by simp⟩
    · simp only [hp]
      rw [if_neg (by simp), ih]
      constructor
      · rintro ⟨pre, suf, h⟩
        exact ⟨c :: pre, suf, by simp [h]⟩
      · rintro ⟨pre, suf, h⟩
        cases pre with
        | nil =>
          exfalso
          apply hp
          exact List.isPrefixOf_iff_prefix.mpr ⟨suf, by simpa using h.symm⟩
        | cons d pre =>
          simp only [List.cons_append, List.cons.injEq] at h
          exact ⟨pre, suf, h.2⟩

theorem find_ne_none_iff (name pat : String) : find name pat ≠ none ↔ Contains name pat := by
  unfold find Contains
  exact findFrom_ne_none_iff _ _ _

theorem firstPathValue_eq_none_iff (ds : List Description) :
    firstPathValue ds = none ↔ ∀ d ∈ ds, ¬ Contains d.name "path" := by
  induction ds with
  | nil => simp [firstPathValue]
  | cons d ds ih =>
    simp only [firstPathValue, List.mem_cons, forall_eq_or_imp, ← find_ne_none_iff]
    by_cases h : find d.name "path" = none
    · simp [h, ih, find_ne_none_iff]
    · simp [h]

theorem firstPathValue_first (front : List Description) (d : Description)
    (back : List Description) (hfront : ∀ d' ∈ front, ¬ Contains d'.name "path")
    (hd : Contains d.name "path") :
    firstPathValue (front ++ d :: back) = some d.value := by
  induction front with
  | nil =>
    have h := (find_ne_none_iff d.name "path").mpr hd
    simp [firstPathValue, h]
  | cons d' front ih =>
    have h : find d'.name "path" = none := by
      by_contra hne
      exact hfront d' (by simp) ((find_ne_none_iff _ _).mp hne)
    simp only [List.cons_append, firstPathValue, h]
    simpa using ih (fun x hx => hfront x (by simp [hx]))

/-! ## Path resolution -/

theorem getProviderFilePath_null (P : ProviderOps σ) (provider : ProviderPtr) (w : World σ)
    (h : deref provider w = none) : getProviderFilePath P provider w = (.ok none, w) := by
  cases provider with
  | nullptr => simp [getProviderFilePath, pure_run]
  | current =>
    simp [getProviderFilePath, tryCatchAll, bind_run, callQuery, h, pure_run]

theorem getProviderFilePath_run (P : ProviderOps σ) (provider : ProviderPtr) (w : World σ)
    (s : σ) (h : deref provider w = some s) :
    getProviderFilePath P provider w =
      (.ok (match P.getDataDescription s with
            | .ok ds => firstPathValue ds
            | .error _ => none),
       { w with trace := w.trace ++ [.getDataDescription] }) := by
  cases provider with
  | nullptr => simp [deref] at h
  | current =>
    cases hdesc : P.getDataDescription s <;>
      simp [getProviderFilePath, tryCatchAll, bind_run, callQuery, h, pure_run, hdesc]

/-- C9: `getProviderFilePath` never raises; it returns empty exactly when the handle is null,
the description query fails, or no description entry has a name containing "path"; and when
the description has a first entry whose name contains "path", it returns that entry's value. -/
theorem getProviderFilePath_resolves (P : ProviderOps σ) (provider : ProviderPtr)
    (w : World σ) :
    ∃ r : Option String, (getProviderFilePath P provider w).1 = .ok r ∧
      (r = none ↔
        deref provider w = none ∨
        (∃ s e, deref provider w = some s ∧ P.getDataDescription s = .error e) ∨
        (∃ s ds, deref provider w = some s ∧ P.getDataDescription s = .ok ds ∧
          ∀ d ∈ ds, ¬ Contains d.name "path")) ∧
      (∀ s front d back, deref provider w = some s →
        P.getDataDescription s = .ok (front ++ d :: back) →
        (∀ d' ∈ front, ¬ Contains d'.name "path") → Contains d.name "path" →
        r = some d.value) := by
  cases hd : deref provider w with
  | none =>
    refine ⟨none, by rw [getProviderFilePath_null P provider w hd], by simp, ?_⟩
    intro s front d back hs
    cases hs
  | some s =>
    rw [getProviderFilePath_run P provider w s hd]
    cases hdesc : P.getDataDescription s with
    | error e =>
      refine ⟨none, rfl, ?_, ?_⟩
      · exact ⟨fun _ => Or.inr (Or.inl ⟨s, e, rfl, hdesc⟩), fun _ => rfl⟩
      · intro s' front d back hs' hds
        cases hs'
        rw [hdesc] at hds
        cases hds
    | ok ds =>
      refine ⟨firstPathValue ds, rfl, ?_, ?_⟩
      · rw [firstPathValue_eq_none_iff]
        constructor
        · intro h
          exact Or.inr (Or.inr ⟨s, ds, rfl, hdesc, h⟩)
        · rintro (h | ⟨s', e, hs', he⟩ | ⟨s', ds', hs', hds', h⟩)
          · cases h
          · cases hs'
            rw [hdesc] at he
            cases he
          · cases hs'
            rw [hdesc] at hds'
            cases hds'
            exact h
      · intro s' front d back hs' hds hfront hname
        cases hs'
        rw [hdesc] at hds
        cases hds
        exact firstPathValue_first front d back hfront hname

/-! ## Running the blocks of the tick -/

theorem resizeToFileSize_run (P : ProviderOps σ) (n : Nat) (w : World σ) (s : σ)
    (hp : w.provider = some s) :
    ∃ r s' t, ResizeOutcome P n s r s' ∧
      resizeToFileSize P .current n w =
        (r, { w with provider := some s', trace := w.trace ++ t }) := by
  obtain ⟨en, lk, prov, fs, ev, lg, tr⟩ := w
  simp only at hp
  subst hp
  cases hres : P.isResizable s with
  | error e =>
    exact ⟨.error e, s, [.isResizable], .queryFailed e hres, by
      simp [resizeToFileSize, bind_run, callQuery, deref, hres]⟩
  | ok resizable =>
    cases resizable with
    | false =>
      exact ⟨.ok (), s, [.isResizable], .fixedSize hres, by
        simp [resizeToFileSize, bind_run, pure_run, ite_run, callQuery, deref, hres]⟩
    | true =>
      cases hsize : P.getActualSize s with
      | error e =>
        exact ⟨.error e, s, [.isResizable, .getActualSize], .sizeFailed e hres hsize, by
          simp [resizeToFileSize, bind_run, pure_run, ite_run, callQuery, deref, hres, hsize]⟩
      | ok m =>
        by_cases hm : m = n
        · subst hm
          exact ⟨.ok (), s, [.isResizable, .getActualSize], .sameSize hres hsize, by
            simp [resizeToFileSize, bind_run, pure_run, ite_run, callQuery, deref, hres, hsize]⟩
        · rcases hr : P.resizeRaw n s with ⟨r, s'⟩
          refine ⟨r, s', [.isResizable, .getActualSize, .resizeRaw n],
            .resized m r s' hres hsize hm hr, ?_⟩
          cases r <;>
            simp [resizeToFileSize, bind_run, pure_run, ite_run, callQuery, callMutator, deref,
              hres, hsize, hm, hr]

theorem writeBuffer_run (P : ProviderOps σ) (n : Nat) (buffer : List Nat) (w : World σ) (s : σ)
    (hp : w.provider = some s) :
    ∃ r s' t, WriteOutcome P n buffer s r s' ∧
      writeBuffer P .current n buffer w =
        (r, { w with provider := some s', trace := w.trace ++ t }) := by
  obtain ⟨en, lk, prov, fs, ev, lg, tr⟩ := w
  simp only at hp
  subst hp
  cases hwr : P.isWritable s with
  | error e =>
    exact ⟨.error e, s, [.isWritable], .queryFailed e hwr, by
      simp [writeBuffer, bind_run, callQuery, deref, hwr]⟩
  | ok writable =>
    cases writable with
    | false =>
      exact ⟨.ok (), s, [.isWritable], .readOnly hwr, by
        simp [writeBuffer, bind_run, pure_run, ite_run, callQuery, deref, hwr]⟩
    | true =>
      by_cases hn : n = 0
      · exact ⟨.ok (), s, [.isWritable], .emptyFile hwr hn, by
          simp [writeBuffer, bind_run, pure_run, ite_run, callQuery, deref, hwr, hn]⟩
      · have hpos : 0 < n := Nat.pos_of_ne_zero hn
        rcases hr : P.writeRaw 0 buffer s with ⟨r, s'⟩
        refine ⟨r, s', [.isWritable, .writeRaw 0 buffer], .written r s' hwr hpos hr, ?_⟩
        cases r <;>
          simp [writeBuffer, bind_run, pure_run, ite_run, callQuery, callMutator, deref,
            hwr, hpos, hr]

theorem callMutator_run (op : Op) (f : σ → Except Exn Unit × σ) (w : World σ) (s : σ)
    (hp : w.provider = some s) :
    callMutator op f .current w =
      ((f s).1, { w with provider := some (f s).2, trace := w.trace ++ [op] }) := by
  simp [callMutator, deref, hp]

theorem callQuery_run {α : Type} (op : Op) (f : σ → Except Exn α) (w : World σ) (s : σ)
    (hp : w.provider = some s) :
    callQuery op f .current w = (f s, { w with trace := w.trace ++ [op] }) := by
  simp [callQuery, deref, hp]

theorem syncProvider_run (P : ProviderOps σ) (n : Nat) (buffer : List Nat) (b p : Nat)
    (w : World σ) (s : σ) (hp : w.provider = some s) :
    ∃ r s' t, SyncOutcome P n buffer b p s r s' ∧
      syncProvider P .current n buffer b p w =
        (r, { w with provider := some s', trace := w.trace ++ t,
                     events := eventsAfter r w.events }) := by
  obtain ⟨en, lk, prov, fs, ev, lg, tr⟩ := w
  simp only at hp
  subst hp
  obtain ⟨r₁, s₁, t₁, h₁, e₁⟩ := resizeToFileSize_run P n ⟨en, lk, some s, fs, ev, lg, tr⟩ s rfl
  cases r₁ with
  | error e =>
    exact ⟨.error e, s₁, t₁, .resizeFailed e s₁ h₁, by
      simp [syncProvider, bind_run, e₁, eventsAfter]⟩
  | ok u₁ =>
    obtain ⟨r₂, s₂, t₂, h₂, e₂⟩ :=
      writeBuffer_run P n buffer ⟨en, lk, some s₁, fs, ev, lg, tr ++ t₁⟩ s₁ rfl
    cases r₂ with
    | error e =>
      exact ⟨.error e, s₂, t₁ ++ t₂, .writeFailed e s₁ s₂ h₁ h₂, by
        simp [syncProvider, bind_run, e₁, e₂, eventsAfter]⟩
    | ok u₂ =>
      rcases h₃ : P.markDirty false s₂ with ⟨r₃, s₃⟩
      cases r₃ with
      | error e =>
        exact ⟨.error e, s₃, t₁ ++ t₂ ++ [.markDirty false], .clearFailed e s₁ s₂ s₃ h₁ h₂ h₃, by
          simp [syncProvider, bind_run, e₁, e₂, callMutator, deref, h₃, eventsAfter]⟩
      | ok u₃ =>
        rcases h₄ : P.setBaseAddress b s₃ with ⟨r₄, s₄⟩
        cases r₄ with
        | error e =>
          exact ⟨.error e, s₄, t₁ ++ t₂ ++ [.markDirty false, .setBaseAddress b],
            .baseFailed e s₁ s₂ s₃ s₄ h₁ h₂ h₃ h₄, by
            simp [syncProvider, bind_run, e₁, e₂, callMutator, deref, h₃, h₄, eventsAfter]⟩
        | ok u₄ =>
          rcases h₅ : P.setCurrentPage p s₄ with ⟨r₅, s₅⟩
          cases r₅ with
          | error e =>
            exact ⟨.error e, s₅,
              t₁ ++ t₂ ++ [.markDirty false, .setBaseAddress b, .setCurrentPage p],
              .pageFailed e s₁ s₂ s₃ s₄ s₅ h₁ h₂ h₃ h₄ h₅, by
              simp [syncProvider, bind_run, e₁, e₂, callMutator, deref, h₃, h₄, h₅,
                eventsAfter]⟩
          | ok u₅ =>
            exact ⟨.ok (), s₅,
              t₁ ++ t₂ ++ [.markDirty false, .setBaseAddress b, .setCurrentPage p],
              .done s₁ s₂ s₃ s₄ s₅ h₁ h₂ h₃ h₄ h₅, by
              simp [syncProvider, bind_run, e₁, e₂, callMutator, deref, h₃, h₄, h₅,
                postDataChanged, eventsAfter]⟩

/-! ## Running the tick -/

theorem reloadHandler_run (e : Exn) (w : World σ) :
    reloadHandler e w = (.ok false, { w with log := w.log ++ [reloadFailure e] }) := by
  cases e <;> simp [reloadHandler, bind_run, pure_run, logError, reloadFailure]

theorem autoReloadService_disabled (P : ProviderOps σ) (w : World σ) (h : w.enabled = false) :
    autoReloadService P w = (.ok (), w) := by
  simp [autoReloadService, bind_run, pure_run, ite_run, autoReloadEnabled, h]

theorem autoReloadService_busy (P : ProviderOps σ) (w : World σ) (h : w.enabled = true)
    (hl : w.locked = true) : autoReloadService P w = (.ok (), w) := by
  simp [autoReloadService, bind_run, pure_run, ite_run, autoReloadEnabled, try_lock, h, hl]

theorem autoReloadService_acquired (P : ProviderOps σ) (w : World σ) (h : w.enabled = true)
    (hl : w.locked = false) :
    autoReloadService P w = reloadLocked P { w with locked := true } := by
  simp [autoReloadService, bind_run, pure_run, ite_run, autoReloadEnabled, try_lock, h, hl]

theorem reloadFrom_outcome (P : ProviderOps σ) (path : String) (s : σ) (en : Bool)
    (fs : String → FileView) (ev : List Event) (lg : List LogEntry) (tr : List Op) :
    (∃ e, P.getBaseAddress s = .error e ∧
      reloadFrom P .current path ⟨en, true, some s, fs, ev, lg, tr⟩ =
        (.error e, ⟨en, true, some s, fs, ev, lg, tr ++ [.getBaseAddress]⟩)) ∨
    (∃ b e, P.getBaseAddress s = .ok b ∧ P.getCurrentPage s = .error e ∧
      reloadFrom P .current path ⟨en, true, some s, fs, ev, lg, tr⟩ =
        (.error e, ⟨en, true, some s, fs, ev, lg, tr ++ [.getBaseAddress, .getCurrentPage]⟩)) ∨
    (∃ b p, P.getBaseAddress s = .ok b ∧ P.getCurrentPage s = .ok p ∧
      (fs path).good = false ∧
      reloadFrom P .current path ⟨en, true, some s, fs, ev, lg, tr⟩ =
        (.ok true, ⟨en, false, some s, fs, ev,
          lg ++ [.error "Failed to open file for reading"],
          tr ++ [.getBaseAddress, .getCurrentPage]⟩)) ∨
    (∃ b p e, P.getBaseAddress s = .ok b ∧ P.getCurrentPage s = .ok p ∧
      (fs path).good = true ∧ (fs path).fileSize = .error e ∧
      reloadFrom P .current path ⟨en, true, some s, fs, ev, lg, tr⟩ =
        (.error e, ⟨en, true, some s, fs, ev, lg, tr ++ [.getBaseAddress, .getCurrentPage]⟩)) ∨
    (∃ b p n e s' t, P.getBaseAddress s = .ok b ∧ P.getCurrentPage s = .ok p ∧
      (fs path).good = true ∧ (fs path).fileSize = .ok n ∧
      SyncOutcome P n (readBuffer (fs path) n) b p s (.error e) s' ∧
      reloadFrom P .current path ⟨en, true, some s, fs, ev, lg, tr⟩ =
        (.error e, ⟨en, true, some s', fs, ev, lg, tr ++ t⟩)) ∨
    (∃ b p n s' t, P.getBaseAddress s = .ok b ∧ P.getCurrentPage s = .ok p ∧
      (fs path).good = true ∧ (fs path).fileSize = .ok n ∧
      SyncOutcome P n (readBuffer (fs path) n) b p s (.ok ()) s' ∧
      reloadFrom P .current path ⟨en, true, some s, fs, ev, lg, tr⟩ =
        (.ok false, ⟨en, true, some s', fs, ev ++ [.dataChanged], lg, tr ++ t⟩)) := by
  cases hb : P.getBaseAddress s with
  | error e =>
    exact Or.inl ⟨e, rfl, by simp [reloadFrom, bind_run, callQuery, deref, hb]⟩
  | ok b =>
    refine Or.inr ?_
    cases hp : P.getCurrentPage s with
    | error e =>
      exact Or.inl ⟨b, e, rfl, rfl, by simp [reloadFrom, bind_run, callQuery, deref, hb, hp]⟩
    | ok p =>
      refine Or.inr ?_
      cases hgood : (fs path).good with
      | false =>
        exact Or.inl ⟨b, p, rfl, rfl, rfl, by
          simp [reloadFrom, bind_run, pure_run, ite_run, callQuery, deref, hb, hp, openFile,
            hgood, logError, unlock]⟩
      | true =>
        refine Or.inr ?_
        cases hsize : (fs path).fileSize with
        | error e =>
          exact Or.inl ⟨b, p, e, rfl, rfl, rfl, rfl, by
            simp [reloadFrom, bind_run, pure_run, ite_run, callQuery, deref, hb, hp, openFile,
              hgood, file_size, hsize]⟩
        | ok n =>
          refine Or.inr ?_
          obtain ⟨r, s', t, ho, hrun⟩ :=
            syncProvider_run P n (readBuffer (fs path) n) b p
              ⟨en, true, some s, fs, ev, lg, tr ++ [.getBaseAddress, .getCurrentPage]⟩ s rfl
          cases r with
          | error e =>
            exact Or.inl ⟨b, p, n, e, s', [.getBaseAddress, .getCurrentPage] ++ t,
              rfl, rfl, rfl, rfl, ho, by
              simp [reloadFrom, bind_run, pure_run, ite_run, callQuery, deref, hb, hp, openFile,
                hgood, file_size, hsize, hrun, eventsAfter]⟩
          | ok u =>
            exact Or.inr ⟨b, p, n, s', [.getBaseAddress, .getCurrentPage] ++ t,
              rfl, rfl, rfl, rfl, ho, by
              simp [reloadFrom, bind_run, pure_run, ite_run, callQuery, deref, hb, hp, openFile,
                hgood, file_size, hsize, hrun, eventsAfter]⟩

theorem reloadLocked_resolved (P : ProviderOps σ) (s : σ) (path : String) (en : Bool)
    (fs : String → FileView) (ev : List Event) (lg : List LogEntry) (tr : List Op)
    (hav : P.isAvailable s = .ok true) (hpath : resolvedPath P s = some path) :
    reloadLocked P ⟨en, true, some s, fs, ev, lg, tr⟩ =
      match reloadFrom P .current path
          ⟨en, true, some s, fs, ev, lg, tr ++ [.isAvailable, .getDataDescription]⟩ with
      | (.ok true, w') => (.ok (), w')
      | (.ok false, w') => (.ok (), { w' with locked := false })
      | (.error e, w') =>
        (.ok (), { w' with locked := false, log := w'.log ++ [reloadFailure e] }) := by
  have hres := getProviderFilePath_run P .current
    ⟨en, true, some s, fs, ev, lg, tr ++ [.isAvailable]⟩ s rfl
  simp only [resolvedPath] at hpath
  rw [hpath] at hres
  simp only [reloadLocked, reloadBody, bind_run, providerGet, currentProvider, callQuery, deref,
    hav, tryCatchAll, hres, ite_run]
  simp only [List.append_assoc, List.singleton_append]
  generalize reloadFrom P .current path
      ⟨en, true, some s, fs, ev, lg, tr ++ [.isAvailable, .getDataDescription]⟩ = x
  obtain ⟨r, w'⟩ := x
  cases r with
  | error e => simp [reloadHandler_run, unlock]
  | ok returned => cases returned <;> simp [pure_run, unlock]

/-- Once the guard is held, the tick always ends in one of the listed ways. -/
theorem reloadLocked_outcome (P : ProviderOps σ) (w : World σ) :
    LockedOutcome P w (reloadLocked P { w with locked := true }) := by
  obtain ⟨en, lk, prov, fs, ev, lg, tr⟩ := w
  cases prov with
  | none =>
    have hrun : reloadLocked P ⟨en, true, none, fs, ev, lg, tr⟩ =
        (.ok (), ⟨en, false, none, fs, ev, lg, tr⟩) := by
      simp [reloadLocked, bind_run, ite_run, providerGet, currentProvider, unlock]
    simp only [hrun]
    exact .noProvider rfl
  | some s =>
    cases hav : P.isAvailable s with
    | error e =>
      have hrun : reloadLocked P ⟨en, true, some s, fs, ev, lg, tr⟩ =
          (.error e, ⟨en, true, some s, fs, ev, lg, tr ++ [.isAvailable]⟩) := by
        simp [reloadLocked, bind_run, ite_run, providerGet, currentProvider, callQuery,
          deref, hav]
      simp only [hrun]
      exact .availabilityThrew s e rfl hav
    | ok available =>
      cases available with
      | false =>
        have hrun : reloadLocked P ⟨en, true, some s, fs, ev, lg, tr⟩ =
            (.ok (), ⟨en, false, some s, fs, ev, lg, tr ++ [.isAvailable]⟩) := by
          simp [reloadLocked, bind_run, ite_run, providerGet, currentProvider, callQuery,
            deref, hav, unlock]
        simp only [hrun]
        exact .unavailable s rfl hav
      | true =>
        cases hpath : resolvedPath P s with
        | none =>
          have hres := getProviderFilePath_run P .current
            ⟨en, true, some s, fs, ev, lg, tr ++ [.isAvailable]⟩ s rfl
          simp only [resolvedPath] at hpath
          rw [hpath] at hres
          have hrun : reloadLocked P ⟨en, true, some s, fs, ev, lg, tr⟩ =
              (.ok (), ⟨en, false, some s, fs, ev,
                lg ++ [.debug "Could not determine file path"],
                tr ++ [.isAvailable, .getDataDescription]⟩) := by
            simp [reloadLocked, reloadBody, bind_run, pure_run, ite_run, providerGet,
              currentProvider, callQuery, deref, hav, tryCatchAll, hres, logDebug, unlock]
          simp only [hrun]
          exact .noPath s rfl hav (by simp [resolvedPath, hpath])
        | some path =>
          simp only [reloadLocked_resolved P s path en fs ev lg tr hav hpath]
          rcases reloadFrom_outcome P path s en fs ev lg
              (tr ++ [.isAvailable, .getDataDescription]) with
            ⟨e, hb, hrun⟩ | ⟨b, e, hb, hp, hrun⟩ | ⟨b, p, hb, hp, hgood, hrun⟩ |
            ⟨b, p, e, hb, hp, hgood, hsize, hrun⟩ |
            ⟨b, p, n, e, s', t, hb, hp, hgood, hsize, ho, hrun⟩ |
            ⟨b, p, n, s', t, hb, hp, hgood, hsize, ho, hrun⟩
          · rw [hrun]
            simpa using LockedOutcome.baseFailed (w := ⟨en, lk, some s, fs, ev, lg, tr⟩)
              s path e rfl hav hpath hb
          · rw [hrun]
            simpa using LockedOutcome.pageFailed (w := ⟨en, lk, some s, fs, ev, lg, tr⟩)
              s path b e rfl hav hpath hb hp
          · rw [hrun]
            simpa using LockedOutcome.openFailed (w := ⟨en, lk, some s, fs, ev, lg, tr⟩)
              s path b p rfl hav hpath hb hp hgood
          · rw [hrun]
            simpa using LockedOutcome.sizeFailed (w := ⟨en, lk, some s, fs, ev, lg, tr⟩)
              s path b p e rfl hav hpath hb hp hgood hsize
          · rw [hrun]
            simpa using LockedOutcome.syncFailed (w := ⟨en, lk, some s, fs, ev, lg, tr⟩)
              s path b p n e s' ([.isAvailable, .getDataDescription] ++ t)
              rfl hav hpath hb hp hgood hsize ho
          · rw [hrun]
            simpa using LockedOutcome.synced (w := ⟨en, lk, some s, fs, ev, lg, tr⟩)
              s path b p n s' ([.isAvailable, .getDataDescription] ++ t)
              rfl hav hpath hb hp hgood hsize ho

/-- The tick always ends in one of the listed ways. -/
theorem tick_outcome (P : ProviderOps σ) (w : World σ) :
    TickOutcome P w (autoReloadService P w) := by
  cases hen : w.enabled with
  | false =>
    rw [autoReloadService_disabled _ _ hen]
    exact .disabled hen
  | true =>
    cases hlk : w.locked with
    | true =>
      rw [autoReloadService_busy _ _ hen hlk]
      exact .busy hen hlk
    | false =>
      rw [autoReloadService_acquired _ _ hen hlk]
      exact .acquired _ hen hlk (reloadLocked_outcome P w)

/-! ## What the tick does, by outcome -/

/-- Either the tick leaves the provider untouched, or it got as far as reading the file: the
provider was there and available, its path resolved, the file opened and its size was known. -/
theorem untouched_or_read (P : ProviderOps σ) (w : World σ) :
    Untouched w (autoReloadService P w).2 ∨
      ∃ s path n, w.provider = some s ∧ resolvedPath P s = some path ∧
        (w.fs path).good = true ∧ (w.fs path).fileSize = .ok n := by
  have ho := tick_outcome P w
  generalize autoReloadService P w = res at ho ⊢
  cases ho with
  | disabled _ => exact Or.inl ⟨rfl, rfl, [], by simp, by simp⟩
  | busy _ _ => exact Or.inl ⟨rfl, rfl, [], by simp, by simp⟩
  | acquired r _ _ hr =>
    cases hr with
    | noProvider _ => exact Or.inl ⟨rfl, rfl, [], by simp, by simp⟩
    | availabilityThrew s e _ _ => exact Or.inl ⟨rfl, rfl, _, rfl, by simp [Op.mutates]⟩
    | unavailable s _ _ => exact Or.inl ⟨rfl, rfl, _, rfl, by simp [Op.mutates]⟩
    | noPath s _ _ _ => exact Or.inl ⟨rfl, rfl, _, rfl, by simp [Op.mutates]⟩
    | baseFailed s path e _ _ _ _ => exact Or.inl ⟨rfl, rfl, _, rfl, by simp [Op.mutates]⟩
    | pageFailed s path b e _ _ _ _ _ => exact Or.inl ⟨rfl, rfl, _, rfl, by simp [Op.mutates]⟩
    | openFailed s path b p _ _ _ _ _ _ =>
      exact Or.inl ⟨rfl, rfl, _, rfl, by simp [Op.mutates]⟩
    | sizeFailed s path b p e _ _ _ _ _ _ _ =>
      exact Or.inl ⟨rfl, rfl, _, rfl, by simp [Op.mutates]⟩
    | syncFailed s path b p n e s' t hp _ hpath _ _ hgood hsize _ =>
      exact Or.inr ⟨s, path, n, hp, hpath, hgood, hsize⟩
    | synced s path b p n s' t hp _ hpath _ _ hgood hsize _ =>
      exact Or.inr ⟨s, path, n, hp, hpath, hgood, hsize⟩

/-- A tick that returns has released the guard it took. -/
theorem guard_released_on_return (P : ProviderOps σ) (w w' : World σ) (hl : w.locked = false)
    (h : autoReloadService P w = (.ok (), w')) : w'.locked = false := by
  have ho := tick_outcome P w
  rw [h] at ho
  cases ho with
  | disabled _ => exact hl
  | busy _ hb =>
    rw [hl] at hb
    cases hb
  | acquired r _ _ hr => cases hr <;> rfl

/-- The only exception that leaves the tick is one thrown by `isAvailable`, and it leaves the
tick with the guard locked. -/
theorem escape_only_from_availability (P : ProviderOps σ) (w w' : World σ) (e : Exn)
    (h : autoReloadService P w = (.error e, w')) :
    w.enabled = true ∧ w.locked = false ∧ w'.locked = true ∧
      ∃ s, w.provider = some s ∧ P.isAvailable s = .error e := by
  have ho := tick_outcome P w
  rw [h] at ho
  cases ho with
  | acquired r hen hlk hr =>
    cases hr with
    | availabilityThrew s e hp hav => exact ⟨hen, hlk, rfl, s, hp, hav⟩

/-- A tick that reached its notification went through every step: each condition was met and
each member function returned. -/
theorem notified_inv (P : ProviderOps σ) (w : World σ)
    (h : Notified w (autoReloadService P w).2) :
    ∃ s path b p n s₁ s₂ s₃ s₄ s₅ t,
      w.enabled = true ∧ w.locked = false ∧ w.provider = some s ∧
      P.isAvailable s = .ok true ∧ resolvedPath P s = some path ∧
      P.getBaseAddress s = .ok b ∧ P.getCurrentPage s = .ok p ∧
      (w.fs path).good = true ∧ (w.fs path).fileSize = .ok n ∧
      ResizeOutcome P n s (.ok ()) s₁ ∧
      WriteOutcome P n (readBuffer (w.fs path) n) s₁ (.ok ()) s₂ ∧
      P.markDirty false s₂ = (.ok (), s₃) ∧
      P.setBaseAddress b s₃ = (.ok (), s₄) ∧
      P.setCurrentPage p s₄ = (.ok (), s₅) ∧
      autoReloadService P w =
        (.ok (), { w with locked := false, provider := some s₅,
                          events := w.events ++ [.dataChanged], trace := w.trace ++ t }) := by
  unfold Notified at h
  generalize hres : autoReloadService P w = res at h
  have ho := tick_outcome P w
  rw [hres] at ho
  cases ho with
  | disabled _ => simp at h
  | busy _ _ => simp at h
  | acquired r hen hlk hr =>
    cases hr with
    | noProvider _ => simp at h
    | availabilityThrew s e _ _ => simp at h
    | unavailable s _ _ => simp at h
    | noPath s _ _ _ => simp at h
    | baseFailed s path e _ _ _ _ => simp at h
    | pageFailed s path b e _ _ _ _ _ => simp at h
    | openFailed s path b p _ _ _ _ _ _ => simp at h
    | sizeFailed s path b p e _ _ _ _ _ _ _ => simp at h
    | syncFailed s path b p n e s' t _ _ _ _ _ _ _ _ => simp at h
    | synced s path b p n s' t hp hav hpath hb hpg hgood hsize hsync =>
      cases hsync with
      | done s₁ s₂ s₃ s₄ s₅ h₁ h₂ h₃ h₄ h₅ =>
        exact ⟨s, path, b, p, n, s₁, s₂, s₃, s₄, s', t, hen, hlk, hp, hav, hpath, hb, hpg,
          hgood, hsize, h₁, h₂, h₃, h₄, h₅, rfl⟩

/-! ## The reference provider meets the laws -/

theorem readBuffer_length (file : FileView) (n : Nat) : (readBuffer file n).length = n := by
  simp [readBuffer]
  omega

theorem readBuffer_full (file : FileView) : readBuffer file file.stream.length = file.stream := by
  simp [readBuffer]

theorem resizeBytes_length (n : Nat) (bytes : List Nat) : (resizeBytes n bytes).length = n := by
  simp [resizeBytes]
  omega

theorem overwriteBytes_length (offset : Nat) (buffer bytes : List Nat) :
    (overwriteBytes offset buffer bytes).length = bytes.length := by
  simp [overwriteBytes]
  omega

theorem overwriteBytes_whole (buffer bytes : List Nat) (h : bytes.length = buffer.length) :
    overwriteBytes 0 buffer bytes = buffer := by
  simp [overwriteBytes, h]

theorem refOps_navigation : NavigationLaws refOps where
  setBaseAddress_get := by
    intro a s s' h
    simp only [refOps, Prod.mk.injEq] at h
    simp [refOps, ← h.2]
  setCurrentPage_get := by
    intro p s s' h
    simp only [refOps, Prod.mk.injEq] at h
    simp [refOps, ← h.2]
  setCurrentPage_base := by
    intro p s
    rfl

theorem refOps_frame : FrameLaws refOps refObs where
  markDirty_content := fun _ _ => rfl
  setBaseAddress_content := fun _ _ => rfl
  setCurrentPage_content := fun _ _ => rfl

theorem refOps_buffer : BufferLaws refOps refObs where
  size_content := by
    intro s n h
    simpa [refOps, refObs] using h
  resize_size := by
    intro n s s' h
    simp only [refOps, Prod.mk.injEq] at h
    simp [refOps, ← h.2, resizeBytes_length]
  resize_writable := fun _ _ => rfl
  write_content := by
    intro buffer s s' h hsize
    simp only [refOps, Except.ok.injEq] at hsize
    cases hf : s.writeFault with
    | some e => simp [refOps, hf] at h
    | none =>
      simp only [refOps, hf, Prod.mk.injEq, true_and] at h
      simp [refObs, ← h, overwriteBytes_whole buffer s.bytes hsize]
  write_size := by
    intro offset buffer s
    cases hf : s.writeFault with
    | some e => simp [refOps, hf]
    | none => simp [refOps, hf, overwriteBytes_length]
  markDirty_flag := by
    intro d s s' h
    simp only [refOps, Prod.mk.injEq] at h
    simp [refObs, ← h.2]
  markDirty_size := fun _ _ => rfl
  setBaseAddress_size := fun _ _ => rfl
  setBaseAddress_dirty := fun _ _ => rfl
  setCurrentPage_size := fun _ _ => rfl
  setCurrentPage_dirty := fun _ _ => rfl

/-! ## The claims about one tick -/

/-- C3 (no-op when disabled): a tick with the service disabled returns at once and leaves the
whole world as it was: the provider state, the events, the guard, and the list of member
functions called. -/
theorem disabled_tick_is_noop (P : ProviderOps σ) (w : World σ) (h : w.enabled = false) :
    autoReloadService P w = (.ok (), w) :=
  autoReloadService_disabled P w h

/-- Witness of C3: the scenario with the service switched off. -/
theorem disabled_tick_is_noop_witness :
    scenarioDisabled.enabled = false ∧
      autoReloadService refOps scenarioDisabled = (.ok (), scenarioDisabled) :=
  ⟨rfl, disabled_tick_is_noop refOps scenarioDisabled rfl⟩

/-- C8 (missing-path safety): when `getProviderFilePath` returns empty for the current
provider, the tick leaves the provider state as it was (so its content, size and dirty flag),
posts no event, and calls neither `resizeRaw`, `writeRaw` nor `markDirty`. -/
theorem missing_path_is_safe (P : ProviderOps σ) (w : World σ)
    (h : (getProviderFilePath P (currentProvider w) w).1 = .ok none) :
    (autoReloadService P w).2.provider = w.provider ∧
      (autoReloadService P w).2.events = w.events ∧
      ∃ t, (autoReloadService P w).2.trace = w.trace ++ t ∧ ∀ op ∈ t, op.mutates = false := by
  rcases untouched_or_read P w with hu | ⟨s, path, n, hp, hpath, _, _⟩
  · exact hu
  · exfalso
    have hcur : currentProvider w = .current := by simp [currentProvider, hp]
    rw [hcur, getProviderFilePath_run P .current w s (by simp [deref, hp])] at h
    simp only [resolvedPath] at hpath
    simp [hpath] at h

/-- Witness of C8: a provider whose description has no path entry. -/
theorem missing_path_is_safe_witness :
    (getProviderFilePath refOps (currentProvider scenarioNoPath) scenarioNoPath).1 = .ok none ∧
      ((autoReloadService refOps scenarioNoPath).2.provider = scenarioNoPath.provider ∧
        (autoReloadService refOps scenarioNoPath).2.events = scenarioNoPath.events ∧
        ∃ t, (autoReloadService refOps scenarioNoPath).2.trace = scenarioNoPath.trace ++ t ∧
          ∀ op ∈ t, op.mutates = false) :=
  ⟨by decide, missing_path_is_safe refOps scenarioNoPath (by decide)⟩

/-- C5, as far as it holds (no mutation when the file cannot be read): when the file of the
provider fails to open, or its size query fails, the tick leaves the provider state as it
was, posts no event, and calls neither `resizeRaw`, `writeRaw` nor `markDirty`. -/
theorem failed_read_leaves_buffer (P : ProviderOps σ) (w : World σ) (s : σ) (path : String)
    (hp : w.provider = some s) (hpath : resolvedPath P s = some path)
    (hfail : (w.fs path).good = false ∨ ∃ e, (w.fs path).fileSize = .error e) :
    (autoReloadService P w).2.provider = w.provider ∧
      (autoReloadService P w).2.events = w.events ∧
      ∃ t, (autoReloadService P w).2.trace = w.trace ++ t ∧ ∀ op ∈ t, op.mutates = false := by
  rcases untouched_or_read P w with hu | ⟨s', path', n, hp', hpath', hgood, hsize⟩
  · exact hu
  · exfalso
    rw [hp] at hp'
    cases hp'
    rw [hpath] at hpath'
    cases hpath'
    rcases hfail with hbad | ⟨e, he⟩
    · rw [hgood] at hbad
      cases hbad
    · rw [hsize] at he
      cases he

/-- Witness of the amended C5: the file of the provider does not open. -/
theorem failed_read_leaves_buffer_witness :
    (scenarioNoFile.fs "/tmp/data.bin").good = false ∧
      ((autoReloadService refOps scenarioNoFile).2.provider = scenarioNoFile.provider ∧
        (autoReloadService refOps scenarioNoFile).2.events = scenarioNoFile.events ∧
        ∃ t, (autoReloadService refOps scenarioNoFile).2.trace = scenarioNoFile.trace ++ t ∧
          ∀ op ∈ t, op.mutates = false) :=
  ⟨by decide, failed_read_leaves_buffer refOps scenarioNoFile tenBytes "/tmp/data.bin" rfl
    (by decide) (Or.inl (by decide))⟩

/-- C5 as stated fails: when the stream delivers fewer bytes (twelve) than the size query
announced (twenty), the tick resizes the provider, writes the zero-padded buffer and clears
the dirty flag. -/
theorem short_read_still_mutates :
    (scenarioShortRead.fs "/tmp/data.bin").stream.length < 20 ∧
      (scenarioShortRead.fs "/tmp/data.bin").fileSize = .ok 20 ∧
      (autoReloadService refOps scenarioShortRead).2.provider.map refObs.content =
        some (List.range 12 ++ List.replicate 8 0) ∧
      (autoReloadService refOps scenarioShortRead).2.provider ≠ scenarioShortRead.provider ∧
      Op.resizeRaw 20 ∈ (autoReloadService refOps scenarioShortRead).2.trace ∧
      Op.writeRaw 0 (List.range 12 ++ List.replicate 8 0) ∈
        (autoReloadService refOps scenarioShortRead).2.trace ∧
      Op.markDirty false ∈ (autoReloadService refOps scenarioShortRead).2.trace := by
  decide

/-- C2 at the failing input: when `isAvailable` throws, the exception leaves the tick and the
guard stays locked. -/
theorem guard_held_when_availability_throws :
    scenarioAvailabilityThrows.enabled = true ∧ scenarioAvailabilityThrows.locked = false ∧
      (autoReloadService refOps scenarioAvailabilityThrows).1 =
        .error (.stdException "provider gone") ∧
      (autoReloadService refOps scenarioAvailabilityThrows).2.locked = true := by
  decide

/-! ## The claims about the provider state after a tick -/

theorem resize_unchanged (P : ProviderOps σ) (n : Nat) (s s₁ : σ) (r : Except Exn Unit)
    (h : ResizeOutcome P n s r s₁)
    (hfixed : P.isResizable s = .ok false ∨ P.getActualSize s = .ok n) : s₁ = s := by
  cases h with
  | queryFailed e _ => rfl
  | fixedSize _ => rfl
  | sizeFailed e _ _ => rfl
  | sameSize _ _ => rfl
  | resized m r s' hres hsize hne _ =>
    exfalso
    rcases hfixed with hf | hf
    · rw [hres] at hf
      cases hf
    · rw [hsize] at hf
      cases hf
      exact hne rfl

theorem write_unchanged (P : ProviderOps σ) (n : Nat) (buffer : List Nat) (s s₂ : σ)
    (r : Except Exn Unit) (h : WriteOutcome P n buffer s r s₂)
    (hro : P.isWritable s = .ok false) : s₂ = s := by
  cases h with
  | queryFailed e _ => rfl
  | readOnly _ => rfl
  | emptyFile _ _ => rfl
  | written r s' hwr _ _ =>
    rw [hwr] at hro
    cases hro

/-- Lines 93-109 leave the bytes of a read-only provider alone when they do not resize it. -/
theorem sync_content_readOnly (P : ProviderOps σ) (O : Observer σ) (hF : FrameLaws P O)
    (n : Nat) (buffer : List Nat) (b p : Nat) (s s' : σ) (r : Except Exn Unit)
    (h : SyncOutcome P n buffer b p s r s') (hro : P.isWritable s = .ok false)
    (hfixed : P.isResizable s = .ok false ∨ P.getActualSize s = .ok n) :
    O.content s' = O.content s := by
  cases h with
  | resizeFailed e s₁ h₁ => rw [resize_unchanged P n s _ _ h₁ hfixed]
  | writeFailed e s₁ s₂ h₁ h₂ =>
    have e₁ := resize_unchanged P n s _ _ h₁ hfixed
    subst e₁
    rw [write_unchanged P n buffer _ _ _ h₂ hro]
  | clearFailed e s₁ s₂ s₃ h₁ h₂ h₃ =>
    have e₁ := resize_unchanged P n s _ _ h₁ hfixed
    subst e₁
    have e₂ := write_unchanged P n buffer _ _ _ h₂ hro
    subst e₂
    have := hF.markDirty_content false s₂
    rw [h₃] at this
    exact this
  | baseFailed e s₁ s₂ s₃ s₄ h₁ h₂ h₃ h₄ =>
    have e₁ := resize_unchanged P n s _ _ h₁ hfixed
    subst e₁
    have e₂ := write_unchanged P n buffer _ _ _ h₂ hro
    subst e₂
    have c₃ := hF.markDirty_content false s₂
    rw [h₃] at c₃
    have c₄ := hF.setBaseAddress_content b s₃
    rw [h₄] at c₄
    exact c₄.trans c₃
  | pageFailed e s₁ s₂ s₃ s₄ s₅ h₁ h₂ h₃ h₄ h₅ =>
    have e₁ := resize_unchanged P n s _ _ h₁ hfixed
    subst e₁
    have e₂ := write_unchanged P n buffer _ _ _ h₂ hro
    subst e₂
    have c₃ := hF.markDirty_content false s₂
    rw [h₃] at c₃
    have c₄ := hF.setBaseAddress_content b s₃
    rw [h₄] at c₄
    have c₅ := hF.setCurrentPage_content p s₄
    rw [h₅] at c₅
    exact c₅.trans (c₄.trans c₃)
  | done s₁ s₂ s₃ s₄ s₅ h₁ h₂ h₃ h₄ h₅ =>
    have e₁ := resize_unchanged P n s _ _ h₁ hfixed
    subst e₁
    have e₂ := write_unchanged P n buffer _ _ _ h₂ hro
    subst e₂
    have c₃ := hF.markDirty_content false s₂
    rw [h₃] at c₃
    have c₄ := hF.setBaseAddress_content b s₃
    rw [h₄] at c₄
    have c₅ := hF.setCurrentPage_content p s₄
    rw [h₅] at c₅
    exact c₅.trans (c₄.trans c₃)

/-- C7, as far as it holds (read-only source): on a provider with `isWritable() == false`
that is not resizable, or whose size is already that of its file, the bytes after the tick
are the bytes before it, whatever the outcome of the tick. -/
theorem readOnly_content_unchanged (P : ProviderOps σ) (O : Observer σ) (hF : FrameLaws P O)
    (w : World σ) (s : σ) (hp : w.provider = some s) (hro : P.isWritable s = .ok false)
    (hfixed : P.isResizable s = .ok false ∨
      ∀ path, resolvedPath P s = some path → P.getActualSize s = (w.fs path).fileSize) :
    ∃ s', (autoReloadService P w).2.provider = some s' ∧ O.content s' = O.content s := by
  have ho := tick_outcome P w
  generalize autoReloadService P w = res at ho ⊢
  cases ho with
  | disabled _ => exact ⟨s, hp, rfl⟩
  | busy _ _ => exact ⟨s, hp, rfl⟩
  | acquired r _ _ hr =>
    cases hr with
    | noProvider _ => exact ⟨s, hp, rfl⟩
    | availabilityThrew s₀ e _ _ => exact ⟨s, hp, rfl⟩
    | unavailable s₀ _ _ => exact ⟨s, hp, rfl⟩
    | noPath s₀ _ _ _ => exact ⟨s, hp, rfl⟩
    | baseFailed s₀ path e _ _ _ _ => exact ⟨s, hp, rfl⟩
    | pageFailed s₀ path b e _ _ _ _ _ => exact ⟨s, hp, rfl⟩
    | openFailed s₀ path b p _ _ _ _ _ _ => exact ⟨s, hp, rfl⟩
    | sizeFailed s₀ path b p e _ _ _ _ _ _ _ => exact ⟨s, hp, rfl⟩
    | syncFailed s₀ path b p n e s' t hp₀ _ hpath _ _ _ hsize hsync =>
      rw [hp] at hp₀
      cases hp₀
      refine ⟨s', rfl, sync_content_readOnly P O hF n _ b p s s' _ hsync hro ?_⟩
      rcases hfixed with hf | hf
      · exact Or.inl hf
      · exact Or.inr ((hf path hpath).trans hsize)
    | synced s₀ path b p n s' t hp₀ _ hpath _ _ _ hsize hsync =>
      rw [hp] at hp₀
      cases hp₀
      refine ⟨s', rfl, sync_content_readOnly P O hF n _ b p s s' _ hsync hro ?_⟩
      rcases hfixed with hf | hf
      · exact Or.inl hf
      · exact Or.inr ((hf path hpath).trans hsize)

/-- Witness of the amended C7: a read-only provider of fixed size in front of the grown file. -/
theorem readOnly_content_unchanged_witness :
    refOps.isWritable { tenBytes with writable := false, resizable := false } = .ok false ∧
      ∃ s', (autoReloadService refOps scenarioReadOnly).2.provider = some s' ∧
        refObs.content s' =
          refObs.content { tenBytes with writable := false, resizable := false } :=
  ⟨rfl, readOnly_content_unchanged refOps refObs refOps_frame scenarioReadOnly
    { tenBytes with writable := false, resizable := false } rfl rfl (Or.inl rfl)⟩

/-- C7 as stated fails: a read-only provider that is resizable is cut to the size of its
file, here from the ten bytes `0..9` to the four bytes `0..3`. -/
theorem readOnly_resizable_is_resized :
    scenarioReadOnlyResizable.provider.map refOps.isWritable = some (.ok false) ∧
      scenarioReadOnlyResizable.provider.map refObs.content = some (List.range 10) ∧
      (autoReloadService refOps scenarioReadOnlyResizable).2.provider.map refObs.content =
        some (List.range 4) ∧
      (autoReloadService refOps scenarioReadOnlyResizable).2.provider.map refObs.content ≠
        scenarioReadOnlyResizable.provider.map refObs.content := by
  decide

/-- C4 (state preservation): after a tick that reached its notification, the provider reports
the base address and the page it reported before the tick, whatever `resizeRaw` and
`writeRaw` did to them in between. -/
theorem navigation_preserved (P : ProviderOps σ) (hN : NavigationLaws P) (w : World σ) (s : σ)
    (hp : w.provider = some s) (hsucc : Notified w (autoReloadService P w).2) :
    ∃ s', (autoReloadService P w).2.provider = some s' ∧
      P.getBaseAddress s' = P.getBaseAddress s ∧ P.getCurrentPage s' = P.getCurrentPage s := by
  obtain ⟨s₀, path, b, p, n, s₁, s₂, s₃, s₄, s₅, t, _, _, hp₀, _, _, hb, hpg, _, _, _, _, _,
    h₄, h₅, hrun⟩ := notified_inv P w hsucc
  rw [hp] at hp₀
  cases hp₀
  refine ⟨s₅, by rw [hrun], ?_, ?_⟩
  · have hbase := hN.setCurrentPage_base p s₄
    rw [h₅] at hbase
    simp only at hbase
    rw [hbase, hN.setBaseAddress_get b s₃ s₄ h₄, hb]
  · rw [hN.setCurrentPage_get p s₄ s₅ h₅, hpg]

/-- Witness of C4: in the scenario both `resizeRaw` and `writeRaw` reset the navigation state, and
the provider is back at base address 4096, page 3 after the tick. -/
theorem navigation_preserved_witness :
    Notified scenario (autoReloadService refOps scenario).2 ∧
      ∃ s', (autoReloadService refOps scenario).2.provider = some s' ∧
        refOps.getBaseAddress s' = refOps.getBaseAddress tenBytes ∧
        refOps.getCurrentPage s' = refOps.getCurrentPage tenBytes :=
  ⟨by decide, navigation_preserved refOps refOps_navigation scenario tenBytes rfl (by decide)⟩

/-- C1, as far as it holds (resync fidelity): on a writable, resizable provider whose file has
content `C`, after a tick that reached its notification the size of the provider is the
length of `C`, its bytes are `C`, and its dirty flag is false. -/
theorem resync_fidelity (P : ProviderOps σ) (O : Observer σ) (hB : BufferLaws P O)
    (hF : FrameLaws P O) (w : World σ) (s : σ) (path : String) (C : List Nat)
    (hp : w.provider = some s) (hwr : P.isWritable s = .ok true)
    (hrs : P.isResizable s = .ok true) (hpath : resolvedPath P s = some path)
    (hsize : (w.fs path).fileSize = .ok C.length) (hstream : (w.fs path).stream = C)
    (hsucc : Notified w (autoReloadService P w).2) :
    ∃ s', (autoReloadService P w).2.provider = some s' ∧
      P.getActualSize s' = .ok C.length ∧ O.content s' = C ∧ O.isDirty s' = false := by
  obtain ⟨s₀, path₀, b, p, n, s₁, s₂, s₃, s₄, s₅, t, _, _, hp₀, _, hpath₀, _, _, _, hsize₀,
    h₁, h₂, h₃, h₄, h₅, hrun⟩ := notified_inv P w hsucc
  rw [hp] at hp₀
  cases hp₀
  rw [hpath] at hpath₀
  cases hpath₀
  rw [hsize] at hsize₀
  cases hsize₀
  -- after the resize: the size is that of the file, and the provider is still writable
  have r₁ : P.getActualSize s₁ = .ok C.length ∧ P.isWritable s₁ = .ok true := by
    cases h₁ with
    | fixedSize hres =>
      rw [hrs] at hres
      cases hres
    | sameSize _ hsame => exact ⟨hsame, hwr⟩
    | resized m r s' _ _ _ hr =>
      refine ⟨hB.resize_size _ _ _ hr, ?_⟩
      have := hB.resize_writable C.length s
      rw [hr] at this
      exact this.trans hwr
  -- after the write: the bytes are those of the file
  have r₂ : P.getActualSize s₂ = .ok C.length ∧ O.content s₂ = C := by
    cases h₂ with
    | readOnly hro =>
      rw [r₁.2] at hro
      cases hro
    | emptyFile _ hzero =>
      refine ⟨r₁.1, ?_⟩
      have hlen := hB.size_content _ _ r₁.1
      rw [hzero] at hlen
      rw [List.length_eq_zero.mp hlen, List.length_eq_zero.mp hzero]
    | written r s' _ _ hw =>
      have hbuf : readBuffer (w.fs path) C.length = C := by
        have := readBuffer_full (w.fs path)
        rw [hstream] at this
        exact this
      rw [hbuf] at hw
      refine ⟨?_, hB.write_content C s₁ s₂ hw r₁.1⟩
      have := hB.write_size 0 C s₁
      rw [hw] at this
      exact this.trans r₁.1
  -- clearing the flag and restoring the navigation state keep both
  have e₃ : s₃ = (P.markDirty false s₂).2 := by rw [h₃]
  have e₄ : s₄ = (P.setBaseAddress b s₃).2 := by rw [h₄]
  have e₅ : s₅ = (P.setCurrentPage p s₄).2 := by rw [h₅]
  refine ⟨s₅, by rw [hrun], ?_, ?_, ?_⟩
  · rw [e₅, hB.setCurrentPage_size, e₄, hB.setBaseAddress_size, e₃, hB.markDirty_size]
    exact r₂.1
  · rw [e₅, hF.setCurrentPage_content, e₄, hF.setBaseAddress_content, e₃,
      hF.markDirty_content]
    exact r₂.2
  · rw [e₅, hB.setCurrentPage_dirty, e₄, hB.setBaseAddress_dirty]
    exact hB.markDirty_flag false s₂ s₃ h₃

/-- Witness of the amended C1, the scenario of the specification: the file grew from the bytes
`0..9` to `0..19`; after the tick the provider has size 20, bytes `0..19`, and is not dirty. -/
theorem resync_fidelity_witness :
    Notified scenario (autoReloadService refOps scenario).2 ∧
      ∃ s', (autoReloadService refOps scenario).2.provider = some s' ∧
        refOps.getActualSize s' = .ok (List.range 20).length ∧
        refObs.content s' = List.range 20 ∧ refObs.isDirty s' = false :=
  ⟨by decide, resync_fidelity refOps refObs refOps_buffer refOps_frame scenario tenBytes
    "/tmp/data.bin" (List.range 20) rfl rfl rfl (by decide) rfl rfl (by decide)⟩

/-- C1 as stated fails: the service is enabled, the guard free, the provider available,
writable and resizable, its path resolves and the file holds the twenty bytes `0..19`; but
`writeRaw` throws, and after the tick the provider holds ten bytes and ten zeroes and is still
dirty. -/
theorem resync_fails_when_write_throws :
    scenarioWriteThrows.enabled = true ∧ scenarioWriteThrows.locked = false ∧
      scenarioWriteThrows.provider.map refOps.isAvailable = some (.ok true) ∧
      scenarioWriteThrows.provider.map refOps.isWritable = some (.ok true) ∧
      scenarioWriteThrows.provider.map refOps.isResizable = some (.ok true) ∧
      scenarioWriteThrows.provider.map (resolvedPath refOps) = some (some "/tmp/data.bin") ∧
      (scenarioWriteThrows.fs "/tmp/data.bin").good = true ∧
      (scenarioWriteThrows.fs "/tmp/data.bin").fileSize = .ok 20 ∧
      (scenarioWriteThrows.fs "/tmp/data.bin").stream = List.range 20 ∧
      (autoReloadService refOps scenarioWriteThrows).2.provider.map refObs.content =
        some (List.range 10 ++ List.replicate 10 0) ∧
      (autoReloadService refOps scenarioWriteThrows).2.provider.map refObs.content ≠
        some (List.range 20) ∧
      (autoReloadService refOps scenarioWriteThrows).2.provider.map refObs.isDirty =
        some true := by
  decide

theorem overwriteBytes_again (buffer bytes : List Nat) :
    overwriteBytes 0 buffer (overwriteBytes 0 buffer bytes) = overwriteBytes 0 buffer bytes := by
  simp only [overwriteBytes, List.take_zero, List.nil_append, Nat.sub_zero, Nat.zero_add,
    List.length_append, List.length_take, List.length_drop]
  by_cases h : buffer.length ≤ bytes.length
  · have h₁ : min (bytes.length) buffer.length = buffer.length := by omega
    have h₂ : buffer.length + (bytes.length - buffer.length) = bytes.length := by omega
    rw [h₁, h₂, List.take_of_length_le h]
    rw [List.drop_append_of_le_length (by omega)]
    simp
  · have h₁ : min (bytes.length) buffer.length = bytes.length := by omega
    have h₂ : bytes.length - buffer.length = 0 := by omega
    rw [h₁, h₂, Nat.add_zero]
    have h₃ : List.drop buffer.length bytes = [] := List.drop_of_length_le (by omega)
    rw [h₃, List.append_nil]
    have h₄ : List.drop buffer.length (List.take bytes.length buffer) = [] :=
      List.drop_of_length_le (by simp)
    rw [h₄, List.append_nil]

theorem refOps_stable : StableLaws refOps refObs where
  resizeRaw_capabilities := fun _ _ => rfl
  writeRaw_capabilities := by
    intro offset buffer s
    cases hf : s.writeFault <;> simp [refOps, capabilities, hf]
  markDirty_capabilities := fun _ _ => rfl
  setBaseAddress_capabilities := fun _ _ => rfl
  setCurrentPage_capabilities := fun _ _ => rfl
  write_again := by
    intro buffer s s' t t' hs hc ht
    cases hfs : s.writeFault with
    | some e => simp [refOps, hfs] at hs
    | none =>
      cases hft : t.writeFault with
      | some e => simp [refOps, hft] at ht
      | none =>
        simp only [refOps, hfs, Prod.mk.injEq, true_and] at hs
        simp only [refOps, hft, Prod.mk.injEq, true_and] at ht
        simp only [refObs, ← hs] at hc
        simp only [refObs, ← ht, hc]
        exact overwriteBytes_again buffer s.bytes

/-! ## Two ticks in a row -/

theorem resize_capabilities (P : ProviderOps σ) (O : Observer σ) (hS : StableLaws P O)
    (n : Nat) (s s₁ : σ) (r : Except Exn Unit) (h : ResizeOutcome P n s r s₁) :
    capabilities P s₁ = capabilities P s := by
  cases h with
  | queryFailed e _ => rfl
  | fixedSize _ => rfl
  | sizeFailed e _ _ => rfl
  | sameSize _ _ => rfl
  | resized m r s' _ _ _ hr =>
    have := hS.resizeRaw_capabilities n s
    rw [hr] at this
    exact this

theorem write_capabilities (P : ProviderOps σ) (O : Observer σ) (hS : StableLaws P O)
    (n : Nat) (buffer : List Nat) (s s₂ : σ) (r : Except Exn Unit)
    (h : WriteOutcome P n buffer s r s₂) : capabilities P s₂ = capabilities P s := by
  cases h with
  | queryFailed e _ => rfl
  | readOnly _ => rfl
  | emptyFile _ _ => rfl
  | written r s' _ _ hw =>
    have := hS.writeRaw_capabilities 0 buffer s
    rw [hw] at this
    exact this

theorem write_keeps_size (P : ProviderOps σ) (O : Observer σ) (hB : BufferLaws P O)
    (n : Nat) (buffer : List Nat) (s s₂ : σ) (r : Except Exn Unit)
    (h : WriteOutcome P n buffer s r s₂) : P.getActualSize s₂ = P.getActualSize s := by
  cases h with
  | queryFailed e _ => rfl
  | readOnly _ => rfl
  | emptyFile _ _ => rfl
  | written r s' _ _ hw =>
    have := hB.write_size 0 buffer s
    rw [hw] at this
    exact this

/-- What clearing the flag and restoring the navigation state leave behind when the three
calls return. -/
theorem restored (P : ProviderOps σ) (O : Observer σ) (hN : NavigationLaws P)
    (hF : FrameLaws P O) (hB : BufferLaws P O) (hS : StableLaws P O) (b p : Nat)
    (s₂ s₃ s₄ s₅ : σ) (h₃ : P.markDirty false s₂ = (.ok (), s₃))
    (h₄ : P.setBaseAddress b s₃ = (.ok (), s₄)) (h₅ : P.setCurrentPage p s₄ = (.ok (), s₅)) :
    P.getActualSize s₅ = P.getActualSize s₂ ∧ O.content s₅ = O.content s₂ ∧
      O.isDirty s₅ = false ∧ P.getBaseAddress s₅ = .ok b ∧ P.getCurrentPage s₅ = .ok p ∧
      capabilities P s₅ = capabilities P s₂ := by
  have e₃ : s₃ = (P.markDirty false s₂).2 := by rw [h₃]
  have e₄ : s₄ = (P.setBaseAddress b s₃).2 := by rw [h₄]
  have e₅ : s₅ = (P.setCurrentPage p s₄).2 := by rw [h₅]
  refine ⟨?_, ?_, ?_, ?_, hN.setCurrentPage_get p s₄ s₅ h₅, ?_⟩
  · rw [e₅, hB.setCurrentPage_size, e₄, hB.setBaseAddress_size, e₃, hB.markDirty_size]
  · rw [e₅, hF.setCurrentPage_content, e₄, hF.setBaseAddress_content, e₃,
      hF.markDirty_content]
  · rw [e₅, hB.setCurrentPage_dirty, e₄, hB.setBaseAddress_dirty]
    exact hB.markDirty_flag false s₂ s₃ h₃
  · rw [e₅, hN.setCurrentPage_base]
    exact hN.setBaseAddress_get b s₃ s₄ h₄
  · rw [e₅, hS.setCurrentPage_capabilities, e₄, hS.setBaseAddress_capabilities, e₃,
      hS.markDirty_capabilities]

/-- C10 (idempotence of the resync): when two ticks in a row both reach their notification
(the second sees the file system the first saw), the second leaves the provider with the
size, bytes, dirty flag, base address and page the first left, and the guard as the first
left it. -/
theorem resync_idempotent (P : ProviderOps σ) (O : Observer σ) (hN : NavigationLaws P)
    (hF : FrameLaws P O) (hB : BufferLaws P O) (hS : StableLaws P O) (w : World σ)
    (first : Notified w (autoReloadService P w).2)
    (second : Notified (autoReloadService P w).2
      (autoReloadService P (autoReloadService P w).2).2) :
    (autoReloadService P w).2.fs = w.fs ∧
    ∃ s₁ s₂, (autoReloadService P w).2.provider = some s₁ ∧
      (autoReloadService P (autoReloadService P w).2).2.provider = some s₂ ∧
      P.getActualSize s₂ = P.getActualSize s₁ ∧ O.content s₂ = O.content s₁ ∧
      O.isDirty s₂ = O.isDirty s₁ ∧ P.getBaseAddress s₂ = P.getBaseAddress s₁ ∧
      P.getCurrentPage s₂ = P.getCurrentPage s₁ ∧
      (autoReloadService P (autoReloadService P w).2).2.locked =
        (autoReloadService P w).2.locked := by
  obtain ⟨s, path, b, p, n, a₁, a₂, a₃, a₄, a₅, t, _, _, _, _, hpath, _, _, _, hsize,
    ha₁, ha₂, ha₃, ha₄, ha₅, hrun⟩ := notified_inv P w first
  obtain ⟨s', path', b', p', n', c₁, c₂, c₃, c₄, c₅, t', _, _, hp', _, hpath', hb', hpg', _,
    hsize', hc₁, hc₂, hc₃, hc₄, hc₅, hrun'⟩ := notified_inv P _ second
  rw [hrun']
  rw [hrun] at hp' hsize' hc₂ ⊢
  simp only [Option.some.injEq] at hp'
  subst hp'
  -- the state the first tick leaves
  obtain ⟨za, ca, da, ba, pa, ka⟩ := restored P O hN hF hB hS b p a₂ a₃ a₄ a₅ ha₃ ha₄ ha₅
  have ka₂ := write_capabilities P O hS n _ a₁ a₂ _ ha₂
  have ka₁ := resize_capabilities P O hS n s a₁ _ ha₁
  have za₂ := write_keeps_size P O hB n _ a₁ a₂ _ ha₂
  -- the second tick resolves the same path, so reads the same file
  have hsame : resolvedPath P a₅ = resolvedPath P s := by
    have hk := ka.trans (ka₂.trans ka₁)
    simp only [capabilities, Prod.mk.injEq] at hk
    simp only [resolvedPath, hk.2.2]
  rw [hsame, hpath] at hpath'
  cases hpath'
  simp only at hsize'
  rw [hsize] at hsize'
  cases hsize'
  -- it restores what the first restored
  rw [ba] at hb'
  cases hb'
  rw [pa] at hpg'
  cases hpg'
  -- it does not resize
  have hfixed : P.isResizable a₅ = .ok false ∨ P.getActualSize a₅ = .ok n := by
    have hk := ka.trans (ka₂.trans ka₁)
    simp only [capabilities, Prod.mk.injEq] at hk
    rw [hk.1, za, za₂]
    cases ha₁ with
    | fixedSize hres => exact Or.inl hres
    | sameSize _ hsame => exact Or.inr hsame
    | resized m r s' _ _ _ hr => exact Or.inr (hB.resize_size _ _ _ hr)
  have e₁ := resize_unchanged P n a₅ c₁ _ hc₁ hfixed
  subst e₁
  -- and writes, if it writes, the bytes that are there
  have hwrite : P.getActualSize c₂ = P.getActualSize c₁ ∧ O.content c₂ = O.content c₁ := by
    refine ⟨write_keeps_size P O hB n _ c₁ c₂ _ hc₂, ?_⟩
    cases hc₂ with
    | readOnly _ => rfl
    | emptyFile _ _ => rfl
    | written r s' hwr hpos hw =>
      have hk := ka.trans ka₂
      simp only [capabilities, Prod.mk.injEq] at hk
      rw [hk.2.1] at hwr
      cases ha₂ with
      | readOnly hro =>
        rw [hwr] at hro
        cases hro
      | emptyFile _ hz => omega
      | written r₁ s₁ _ _ hw₁ => exact hS.write_again _ a₁ a₂ c₁ c₂ hw₁ ca hw
  obtain ⟨zc, cc, dc, bc, pc, _⟩ := restored P O hN hF hB hS b p c₂ c₃ c₄ c₅ hc₃ hc₄ hc₅
  refine ⟨rfl, c₁, c₅, rfl, rfl, ?_, ?_, ?_, ?_, ?_, rfl⟩
  · rw [zc, hwrite.1]
  · rw [cc, hwrite.2]
  · rw [dc, da]
  · rw [bc, ba]
  · rw [pc, pa]

/-- Witness of C10: two ticks in a row on the scenario. -/
theorem resync_idempotent_witness :
    Notified scenario (autoReloadService refOps scenario).2 ∧
      Notified (autoReloadService refOps scenario).2
        (autoReloadService refOps (autoReloadService refOps scenario).2).2 ∧
      ((autoReloadService refOps scenario).2.fs = scenario.fs ∧
        ∃ s₁ s₂, (autoReloadService refOps scenario).2.provider = some s₁ ∧
          (autoReloadService refOps (autoReloadService refOps scenario).2).2.provider =
            some s₂ ∧
          refOps.getActualSize s₂ = refOps.getActualSize s₁ ∧
          refObs.content s₂ = refObs.content s₁ ∧ refObs.isDirty s₂ = refObs.isDirty s₁ ∧
          refOps.getBaseAddress s₂ = refOps.getBaseAddress s₁ ∧
          refOps.getCurrentPage s₂ = refOps.getCurrentPage s₁ ∧
          (autoReloadService refOps (autoReloadService refOps scenario).2).2.locked =
            (autoReloadService refOps scenario).2.locked) :=
  ⟨by decide, by decide,
    resync_idempotent refOps refObs refOps_navigation refOps_frame refOps_buffer refOps_stable
      scenario (by decide) (by decide)⟩

/-! ## Ticks that overlap: mutual exclusion -/

/-- A tick run alone is its steps run one after the other. -/
theorem tick_steps (P : ProviderOps σ) (w : World σ) :
    autoReloadService P w =
      match autoReloadEnabled w with
      | (.ok true, w₁) =>
        (match try_lock w₁ with
          | (.ok true, w₂) => reloadLocked P w₂
          | (.ok false, w₂) => (.ok (), w₂)
          | (.error e, w₂) => (.error e, w₂))
      | (.ok false, w₁) => (.ok (), w₁)
      | (.error e, w₁) => (.error e, w₁) := by
  cases hen : w.enabled <;> cases hlk : w.locked <;>
    simp [autoReloadService, bind_run, pure_run, ite_run, autoReloadEnabled, try_lock, hen, hlk]

/-- An exception leaves the locked part of the tick with the guard still locked. -/
theorem reloadLocked_escape (P : ProviderOps σ) (w w' : World σ) (e : Exn)
    (hl : w.locked = true) (h : reloadLocked P w = (.error e, w')) : w'.locked = true := by
  have ho := reloadLocked_outcome P w
  have hw : ({ w with locked := true } : World σ) = w := by
    cases w
    simp only at hl
    simp [hl]
  rw [hw, h] at ho
  cases ho with
  | availabilityThrew s e _ _ => rfl

theorem exclusive_step (P : ProviderOps σ) (sys sys' : System σ) (h : Exclusive sys)
    (hstep : Step P sys sys') : Exclusive sys' := by
  obtain ⟨huniq, hlocked⟩ := h
  have others : ∀ (i : Nat) (ph : Phase), (sys.phase i).holdsGuard = false →
      ph.holdsGuard = false →
      Exclusive ⟨sys.world, Function.update sys.phase i ph⟩ := by
    intro i ph hi hph
    have hsame : ∀ j, (Function.update sys.phase i ph j).holdsGuard = (sys.phase j).holdsGuard := by
      intro j
      by_cases hj : j = i
      · subst hj
        simp [hi, hph]
      · simp [Function.update_noteq hj]
    refine ⟨fun a b ha hb => huniq a b ?_ ?_, ?_⟩
    · rw [← hsame]; exact ha
    · rw [← hsame]; exact hb
    · rintro ⟨a, ha⟩
      exact hlocked ⟨a, by rw [← hsame]; exact ha⟩
  cases hstep with
  | disabled i w' hph hrun =>
    simp only [autoReloadEnabled, Prod.mk.injEq] at hrun
    rw [← hrun.2]
    exact others i .returned (by simp [hph, Phase.holdsGuard]) rfl
  | enabled i w' hph hrun =>
    simp only [autoReloadEnabled, Prod.mk.injEq] at hrun
    rw [← hrun.2]
    exact others i .checked (by simp [hph, Phase.holdsGuard]) rfl
  | busy i w' hph hrun =>
    cases hlk : sys.world.locked with
    | false => simp [try_lock, hlk] at hrun
    | true =>
      simp only [try_lock, hlk, if_true, Prod.mk.injEq] at hrun
      rw [← hrun.2]
      exact others i .returned (by simp [hph, Phase.holdsGuard]) rfl
  | acquire i w' hph hrun =>
    cases hlk : sys.world.locked with
    | true => simp [try_lock, hlk] at hrun
    | false =>
      simp only [try_lock, hlk, Bool.false_eq_true, if_false, Prod.mk.injEq] at hrun
      have hnone : ∀ j, (sys.phase j).holdsGuard = false := by
        intro j
        by_contra hj
        have := hlocked ⟨j, by simpa using hj⟩
        rw [hlk] at this
        cases this
      have hw' : w'.locked = true := by rw [← hrun.2]
      refine ⟨?_, fun _ => hw'⟩
      intro a b ha hb
      by_cases haa : a = i
      · by_cases hbb : b = i
        · rw [haa, hbb]
        · simp [Function.update_noteq hbb, hnone] at hb
      · simp [Function.update_noteq haa, hnone] at ha
  | finish i w' hph hrun =>
    have hi : (sys.phase i).holdsGuard = true := by simp [hph, Phase.holdsGuard]
    have hnone : ∀ j, (Function.update sys.phase i Phase.returned j).holdsGuard = false := by
      intro j
      by_cases hj : j = i
      · subst hj
        simp [Phase.holdsGuard]
      · simp only [Function.update_noteq hj]
        by_contra hc
        exact hj (huniq j i (by simpa using hc) hi)
    refine ⟨?_, ?_⟩
    · intro a b ha
      simp [hnone] at ha
    · rintro ⟨a, ha⟩
      simp [hnone] at ha
  | escape i e w' hph hrun =>
    have hi : (sys.phase i).holdsGuard = true := by simp [hph, Phase.holdsGuard]
    have hsame : ∀ j, (Function.update sys.phase i Phase.escaped j).holdsGuard =
        (sys.phase j).holdsGuard := by
      intro j
      by_cases hj : j = i
      · subst hj
        rw [hi]
        simp [Phase.holdsGuard]
      · simp [Function.update_noteq hj]
    refine ⟨fun a b ha hb => huniq a b ?_ ?_, fun _ => ?_⟩
    · rw [← hsame]; exact ha
    · rw [← hsame]; exact hb
    · exact reloadLocked_escape P sys.world w' e (hlocked ⟨i, hi⟩) hrun
  | toggle =>
    exact ⟨huniq, hlocked⟩

theorem exclusive_of_reachable (P : ProviderOps σ) (sys : System σ) (h : Reachable P sys) :
    Exclusive sys := by
  induction h with
  | init sys _ hstart =>
    refine ⟨?_, ?_⟩
    · intro i j hi
      simp [hstart, Phase.holdsGuard] at hi
    · rintro ⟨i, hi⟩
      simp [hstart, Phase.holdsGuard] at hi
  | step sys sys' _ hstep ih => exact exclusive_step P sys sys' ih hstep

theorem overlapBusy_reachable : Reachable refOps overlapBusy := by
  have r₀ : Reachable refOps overlapStart := .init _ rfl (fun _ => rfl)
  have r₁ : Reachable refOps overlapChecked :=
    .step _ _ r₀ (.enabled overlapStart 0 scenario rfl rfl)
  have r₂ : Reachable refOps overlapHolding :=
    .step _ _ r₁ (.acquire overlapChecked 0 _ (by simp [overlapChecked]) rfl)
  have r₃ : Reachable refOps overlapSecond :=
    .step _ _ r₂ (.enabled overlapHolding 1 _
      (by simp [overlapHolding, overlapChecked, overlapStart]) rfl)
  exact .step _ _ r₃ (.busy overlapSecond 1 _ (by simp [overlapSecond]) rfl)

/-- C6 (single-flight): however the steps of overlapping ticks interleave, at most one tick is
between its guard acquisition and its guard release; while one is, `try_lock` fails for every
other and changes nothing; and a tick that finds the guard locked returns at once, leaving
the whole world as it was: no member function called, no event posted, the guard still
locked. -/
theorem single_flight (P : ProviderOps σ) (sys : System σ) (h : Reachable P sys) :
    (∀ i j, (sys.phase i).holdsGuard = true → (sys.phase j).holdsGuard = true → i = j) ∧
      (∀ i, (sys.phase i).holdsGuard = true →
        try_lock sys.world = (.ok false, sys.world)) ∧
      (∀ w : World σ, w.locked = true → autoReloadService P w = (.ok (), w)) := by
  obtain ⟨huniq, hlocked⟩ := exclusive_of_reachable P sys h
  refine ⟨huniq, ?_, ?_⟩
  · intro i hi
    simp [try_lock, hlocked ⟨i, hi⟩]
  · intro w hl
    cases hen : w.enabled with
    | false => exact autoReloadService_disabled P w hen
    | true => exact autoReloadService_busy P w hen hl

/-- Witness of C6: tick 0 holds the guard, tick 1 found it busy and returned. -/
theorem single_flight_witness :
    Reachable refOps overlapBusy ∧
      ((∀ i j, (overlapBusy.phase i).holdsGuard = true →
          (overlapBusy.phase j).holdsGuard = true → i = j) ∧
        (∀ i, (overlapBusy.phase i).holdsGuard = true →
          try_lock overlapBusy.world = (.ok false, overlapBusy.world)) ∧
        (∀ w : World RefProvider, w.locked = true →
          autoReloadService refOps w = (.ok (), w))) :=
  ⟨overlapBusy_reachable, single_flight refOps overlapBusy overlapBusy_reachable⟩

end AutoReload
